import Mathlib

/-!
# Verification of the Reddit content-planning library

Shallow embedding of the planning modules of this repository
(`src/lib/planning/index.ts`, `src/lib/planning/subreddits.ts`,
`src/lib/planning/quality.ts`, the anti-spam module, the conversation
module and the topics module) together with proofs of the behavioural
claims made by the specification.

JavaScript numbers are modelled by `ℚ` (the code only ever divides by
quantities that are non-zero on the inputs the claims quantify over, so
rational arithmetic coincides with IEEE-754 evaluation up to rounding of
non-representable decimals, which none of the proved properties depend
on); integers by `ℤ` or `ℕ`; strings by Lean `String`.
-/

/-! ## JavaScript primitives -/

/-- `Math.round` for non-negative halves: JS rounds half toward `+∞`,
which is `⌊q + 1/2⌋` for every `q`. -/
def jround (q : ℚ) : ℚ := (⌊q + 1/2⌋ : ℤ)

/-- `x.toFixed(1)`-style rounding to one decimal used by the quality
scorer: `Math.round(x * 10) / 10`. -/
def jround1 (q : ℚ) : ℚ := jround (q * 10) / 10

/-- `Math.min(...l)` over a non-empty rational list (`0` for `[]`;
call sites guard non-emptiness, JS would give `Infinity`). -/
def listMinQ : List ℚ → ℚ
  | [] => 0
  | x :: xs => xs.foldl min x

/-- `Math.max(...l)` over a non-empty rational list (`0` for `[]`;
call sites guard non-emptiness, JS would give `-Infinity`). -/
def listMaxQ : List ℚ → ℚ
  | [] => 0
  | x :: xs => xs.foldl max x

/-- `Math.min(...l)` over a non-empty integer list. -/
def listMinZ : List ℤ → ℤ
  | [] => 0
  | x :: xs => xs.foldl min x

/-- First-occurrence deduplication with an accumulator of already-seen
elements. -/
def dedupFGo {α : Type} [DecidableEq α] (seen : List α) : List α → List α
  | [] => []
  | a :: l => if a ∈ seen then dedupFGo seen l else a :: dedupFGo (a :: seen) l

/-- Deduplication keeping the FIRST occurrence of each element, the
iteration order of a JavaScript `Map`/`Set` built by insertion. -/
def dedupF {α : Type} [DecidableEq α] (l : List α) : List α := dedupFGo [] l

/-- Generic foldl invariant preservation. -/
theorem foldl_preserve {α β : Type} (P : β → Prop) (f : β → α → β) :
    ∀ (l : List α) (b : β), P b → (∀ b a, P b → a ∈ l → P (f b a)) →
    P (l.foldl f b) := by
  intro l
  induction l with
  | nil => intro b hb _; exact hb
  | cons a t ih =>
      intro b hb hf
      exact ih (f b a) (hf b a hb (by simp))
        (fun b x hbx hx => hf b x hbx (by simp [hx]))

theorem mem_dedupFGo {α : Type} [DecidableEq α] {a : α} :
    ∀ (l seen : List α), a ∈ dedupFGo seen l ↔ a ∈ l ∧ a ∉ seen := by
  intro l
  induction l with
  | nil => intro seen; simp [dedupFGo]
  | cons b t ih =>
      intro seen
      rw [dedupFGo]
      by_cases hb : b ∈ seen
      · rw [if_pos hb, ih]
        constructor
        · rintro ⟨h1, h2⟩
          exact ⟨List.mem_cons_of_mem _ h1, h2⟩
        · rintro ⟨h1, h2⟩
          rcases List.mem_cons.1 h1 with h | h
          · exact absurd (h ▸ hb) h2
          · exact ⟨h, h2⟩
      · rw [if_neg hb]
        constructor
        · intro h
          rcases List.mem_cons.1 h with h | h
          · subst h; exact ⟨by simp, hb⟩
          · rcases (ih (b :: seen)).1 h with ⟨h1, h2⟩
            exact ⟨List.mem_cons_of_mem _ h1,
              fun hs => h2 (List.mem_cons_of_mem _ hs)⟩
        · rintro ⟨h1, h2⟩
          rcases List.mem_cons.1 h1 with h | h
          · simp [h]
          · by_cases hab : a = b
            · simp [hab]
            · exact List.mem_cons_of_mem _
                ((ih (b :: seen)).2 ⟨h, by simp [hab, h2]⟩)

theorem mem_dedupF {α : Type} [DecidableEq α] {a : α} {l : List α} :
    a ∈ dedupF l ↔ a ∈ l := by
  rw [dedupF, mem_dedupFGo]
  simp

theorem length_dedupFGo_le {α : Type} [DecidableEq α] :
    ∀ (l seen : List α), (dedupFGo seen l).length ≤ l.length := by
  intro l
  induction l with
  | nil => intro seen; simp [dedupFGo]
  | cons b t ih =>
      intro seen
      rw [dedupFGo]
      by_cases hb : b ∈ seen
      · rw [if_pos hb]
        exact le_trans (ih seen) (by simp)
      · rw [if_neg hb]
        simpa using ih (b :: seen)

theorem length_dedupF_le {α : Type} [DecidableEq α] (l : List α) :
    (dedupF l).length ≤ l.length := length_dedupFGo_le l []

/-- Sum of a list after `List.set` at a valid index. -/
theorem sum_set_int : ∀ (l : List ℤ) (i : ℕ) (v : ℤ), i < l.length →
    (l.set i v).sum = l.sum - l.getD i 0 + v := by
  intro l
  induction l with
  | nil => intro i v h; simp at h
  | cons a t ih =>
      intro i v h
      cases i with
      | zero => simp [List.set]; ring
      | succ n =>
          simp only [List.set, List.sum_cons, List.getD_cons_succ]
          rw [ih n v (by simpa using h)]
          ring

/-! ## Weekly slot distributor (`src/lib/planning/index.ts`) -/

/-- `const weights = [0.7, 1.2, 1.2, 1.2, 1.2, 1.1, 0.9]` (Sun–Sat). -/
def weekWeights : List ℚ := [7/10, 6/5, 6/5, 6/5, 6/5, 11/10, 9/10]

/-- `weights.reduce((a, b) => a + b, 0)`. -/
def totalWeight : ℚ := weekWeights.foldl (· + ·) 0

/-- First pass of `distributePostsAcrossWeek`: for each weight set
`count = Math.floor((weights[i] / totalWeight) * remaining)` and subtract
it from `remaining`; returns the counts and the final remainder. -/
def firstPass (tw : ℚ) : ℤ → List ℚ → List ℤ × ℤ
  | r, [] => ([], r)
  | r, w :: ws =>
    let c : ℤ := ⌊w / tw * (r : ℚ)⌋
    let rest := firstPass tw (r - c) ws
    (c :: rest.1, rest.2)

/-- The argmax scan of the small-total remainder loop: running
`(bestIndex, bestScore)` over `i = 0..6` with
`score = weights[i] / (distribution[i] + 1)`, starting from `(0, -1)` and
updating on a strict increase. -/
def bestIndexSmall (d : List ℤ) : ℕ × ℚ :=
  (List.range 7).foldl
    (fun acc i =>
      let score := weekWeights.getD i 0 / ((d.getD i 0 : ℚ) + 1)
      if score > acc.2 then (i, score) else acc)
    (0, -1)

/-- Remainder loop of the `totalPosts ≤ 3` branch: while posts remain,
give Friday one post if it has none, else Saturday, else the day with the
best `weight / (count + 1)` score. The fuel is the (non-negative)
remainder, decremented once per iteration exactly as the loop does. -/
def loopSmall : ℕ → List ℤ → List ℤ
  | 0, d => d
  | n + 1, d =>
    if d.getD 5 0 = 0 then loopSmall n (d.set 5 1)
    else if d.getD 6 0 = 0 then loopSmall n (d.set 6 1)
    else
      let b := (bestIndexSmall d).1
      loopSmall n (d.set b (d.getD b 0 + 1))

/-- The scan over `minIndices` of the `totalPosts ≥ 6` remainder loop:
start from the first member and replace it by any member with a strictly
larger weight (`0` for `[]`, which is unreachable since the minimum count
is always attained). -/
def bestFrom : List ℕ → ℕ
  | [] => 0
  | h :: t =>
      (h :: t).foldl
        (fun b i => if weekWeights.getD i 0 > weekWeights.getD b 0 then i else b) h

/-- The selection of the `totalPosts ≥ 6` remainder loop: among indices
`0..6` holding the minimum count (`minIndices`), take the first, then
replace it by any later member with a strictly larger weight. -/
def bestIndexBig (d : List ℤ) : ℕ :=
  bestFrom ((List.range 7).filter (fun i => d.getD i 0 = listMinZ d))

/-- Remainder loop of the `totalPosts ≥ 6` branch: repeatedly increment
the best minimal-count day. -/
def loopBig : ℕ → List ℤ → List ℤ
  | 0, d => d
  | n + 1, d =>
    let b := bestIndexBig d
    loopBig n (d.set b (d.getD b 0 + 1))

/-- `distributePostsAcrossWeek` from `src/lib/planning/index.ts`:
hard-coded splits for 5 and 4 posts, weighted distribution plus
Friday/Saturday-preferring remainder loop for 1–3, weighted distribution
plus balance-preferring remainder loop for 6 and more. -/
def distributePostsAcrossWeek (totalPosts : ℤ) : List ℤ :=
  if totalPosts ≤ 5 then
    if totalPosts = 5 then [0, 1, 1, 1, 0, 1, 1]
    else if totalPosts = 4 then [0, 1, 1, 1, 1, 0, 0]
    else
      let p := firstPass totalWeight totalPosts weekWeights
      loopSmall p.2.toNat p.1
  else
    let p := firstPass totalWeight totalPosts weekWeights
    loopBig p.2.toNat p.1

/-! ### Distributor invariants -/

theorem bestIndexSmall_lt (d : List ℤ) : (bestIndexSmall d).1 < 7 := by
  unfold bestIndexSmall
  apply foldl_preserve (fun acc : ℕ × ℚ => acc.1 < 7)
  · norm_num
  · intro b a hb ha
    dsimp only
    split
    · exact List.mem_range.1 ha
    · exact hb

theorem bestFrom_lt (l : List ℕ) (hl : ∀ i ∈ l, i < 7) : bestFrom l < 7 := by
  cases l with
  | nil => norm_num [bestFrom]
  | cons h t =>
      rw [bestFrom]
      apply foldl_preserve (fun b : ℕ => b < 7)
      · exact hl h (by simp)
      · intro b a hb ha
        split
        · exact hl a ha
        · exact hb

theorem bestIndexBig_lt (d : List ℤ) : bestIndexBig d < 7 := by
  unfold bestIndexBig
  apply bestFrom_lt
  intro i hi
  exact List.mem_range.1 (List.mem_filter.1 hi).1

theorem getD_nonneg {d : List ℤ} (hd : ∀ x ∈ d, 0 ≤ x) {i : ℕ} : 0 ≤ d.getD i 0 := by
  by_cases h : i < d.length
  · rw [List.getD_eq_getElem d 0 h]
    exact hd _ (List.getElem_mem h)
  · rw [List.getD_eq_default d 0 (le_of_not_lt h)]

theorem set_incr_spec (d : List ℤ) (b : ℕ) (v : ℤ) (hb : b < 7) (hlen : d.length = 7)
    (hpos : ∀ x ∈ d, 0 ≤ x) (hv : 0 ≤ v) (hsum : v = d.getD b 0 + 1) :
    (d.set b v).length = 7 ∧ (∀ x ∈ d.set b v, 0 ≤ x) ∧
      (d.set b v).sum = d.sum + 1 := by
  have hb' : b < d.length := by rw [hlen]; exact hb
  refine ⟨by simp [hlen], ?_, ?_⟩
  · intro x hx
    rcases List.mem_or_eq_of_mem_set hx with h | h
    · exact hpos x h
    · rw [h]; exact hv
  · rw [sum_set_int d b v hb', hsum]; ring

theorem loopSmall_spec : ∀ (n : ℕ) (d : List ℤ), d.length = 7 → (∀ x ∈ d, 0 ≤ x) →
    (loopSmall n d).length = 7 ∧ (∀ x ∈ loopSmall n d, 0 ≤ x) ∧
      (loopSmall n d).sum = d.sum + n := by
  intro n
  induction n with
  | zero => intro d h1 h2; exact ⟨h1, h2, by simp [loopSmall]⟩
  | succ m ih =>
      intro d h1 h2
      rw [loopSmall]
      by_cases h5 : d.getD 5 0 = 0
      · rw [if_pos h5]
        have step := set_incr_spec d 5 1 (by norm_num) h1 h2 (by norm_num)
          (by rw [h5]; norm_num)
        have hrec := ih _ step.1 step.2.1
        refine ⟨hrec.1, hrec.2.1, ?_⟩
        rw [hrec.2.2, step.2.2]
        push_cast; ring
      · rw [if_neg h5]
        by_cases h6 : d.getD 6 0 = 0
        · rw [if_pos h6]
          have step := set_incr_spec d 6 1 (by norm_num) h1 h2 (by norm_num)
            (by rw [h6]; norm_num)
          have hrec := ih _ step.1 step.2.1
          refine ⟨hrec.1, hrec.2.1, ?_⟩
          rw [hrec.2.2, step.2.2]
          push_cast; ring
        · rw [if_neg h6]
          have step := set_incr_spec d (bestIndexSmall d).1 _ (bestIndexSmall_lt d)
            h1 h2 (add_nonneg (getD_nonneg h2) zero_le_one) rfl
          have hrec := ih _ step.1 step.2.1
          refine ⟨hrec.1, hrec.2.1, ?_⟩
          rw [hrec.2.2, step.2.2]
          push_cast; ring

theorem loopBig_spec : ∀ (n : ℕ) (d : List ℤ), d.length = 7 → (∀ x ∈ d, 0 ≤ x) →
    (loopBig n d).length = 7 ∧ (∀ x ∈ loopBig n d, 0 ≤ x) ∧
      (loopBig n d).sum = d.sum + n := by
  intro n
  induction n with
  | zero => intro d h1 h2; exact ⟨h1, h2, by simp [loopBig]⟩
  | succ m ih =>
      intro d h1 h2
      rw [loopBig]
      have step := set_incr_spec d (bestIndexBig d) _ (bestIndexBig_lt d)
        h1 h2 (add_nonneg (getD_nonneg h2) zero_le_one) rfl
      have hrec := ih _ step.1 step.2.1
      refine ⟨hrec.1, hrec.2.1, ?_⟩
      rw [hrec.2.2, step.2.2]
      push_cast; ring

theorem firstPass_spec (tw : ℚ) (htw : 0 < tw) :
    ∀ (ws : List ℚ) (r : ℤ), (∀ w ∈ ws, 0 ≤ w ∧ w ≤ tw) → 0 ≤ r →
    (firstPass tw r ws).1.sum + (firstPass tw r ws).2 = r ∧
    (∀ c ∈ (firstPass tw r ws).1, 0 ≤ c) ∧
    0 ≤ (firstPass tw r ws).2 ∧
    (firstPass tw r ws).1.length = ws.length := by
  intro ws
  induction ws with
  | nil => intro r _ hr; simpa [firstPass] using hr
  | cons w ws ih =>
      intro r hws hr
      have hw := hws w (by simp)
      have hfrac0 : (0 : ℚ) ≤ w / tw := div_nonneg hw.1 (le_of_lt htw)
      have hfrac1 : w / tw ≤ 1 := (div_le_one htw).2 hw.2
      have hc0 : 0 ≤ ⌊w / tw * (r : ℚ)⌋ := by
        apply Int.le_floor.2
        push_cast
        exact mul_nonneg hfrac0 (by exact_mod_cast hr)
      have hcr : ⌊w / tw * (r : ℚ)⌋ ≤ r := by
        have hle : w / tw * (r : ℚ) ≤ (r : ℚ) := by
          calc w / tw * (r : ℚ) ≤ 1 * (r : ℚ) :=
                mul_le_mul_of_nonneg_right hfrac1 (by exact_mod_cast hr)
            _ = (r : ℚ) := one_mul _
        calc ⌊w / tw * (r : ℚ)⌋ ≤ ⌊(r : ℚ)⌋ := Int.floor_le_floor hle
          _ = r := Int.floor_intCast r
      have hrec := ih (r - ⌊w / tw * (r : ℚ)⌋)
        (fun x hx => hws x (List.mem_cons_of_mem _ hx)) (by omega)
      simp only [firstPass]
      refine ⟨?_, ?_, hrec.2.2.1, by simp [hrec.2.2.2]⟩
      · simp only [List.sum_cons]
        omega
      · intro c hc
        rcases List.mem_cons.1 hc with h | h
        · rw [h]; exact hc0
        · exact hrec.2.1 c h

theorem weekWeights_bounds : ∀ w ∈ weekWeights, 0 ≤ w ∧ w ≤ totalWeight := by
  intro w hw
  fin_cases hw <;> norm_num [totalWeight, weekWeights]

theorem totalWeight_pos : 0 < totalWeight := by norm_num [totalWeight, weekWeights]

/-- **C1.** For every integer `total ≥ 1`, `distributePostsAcrossWeek total`
returns a list of exactly 7 non-negative integers (indexed Sunday = 0 …
Saturday = 6) whose entries sum exactly to `total`. -/
theorem claim_C1 (total : ℤ) (h : 1 ≤ total) :
    (distributePostsAcrossWeek total).length = 7 ∧
    (∀ x ∈ distributePostsAcrossWeek total, 0 ≤ x) ∧
    (distributePostsAcrossWeek total).sum = total := by
  unfold distributePostsAcrossWeek
  by_cases h5 : total ≤ 5
  · rw [if_pos h5]
    by_cases he5 : total = 5
    · rw [if_pos he5, he5]
      refine ⟨by norm_num, ?_, by norm_num⟩
      intro x hx; fin_cases hx <;> norm_num
    · rw [if_neg he5]
      by_cases he4 : total = 4
      · rw [if_pos he4, he4]
        refine ⟨by norm_num, ?_, by norm_num⟩
        intro x hx; fin_cases hx <;> norm_num
      · rw [if_neg he4]
        have hfp := firstPass_spec totalWeight totalWeight_pos weekWeights total
          weekWeights_bounds (by omega)
        have hls := loopSmall_spec (firstPass totalWeight total weekWeights).2.toNat
          (firstPass totalWeight total weekWeights).1
          (by rw [hfp.2.2.2]; rfl) hfp.2.1
        refine ⟨hls.1, hls.2.1, ?_⟩
        rw [hls.2.2, Int.toNat_of_nonneg hfp.2.2.1]
        omega
  · rw [if_neg h5]
    have hfp := firstPass_spec totalWeight totalWeight_pos weekWeights total
      weekWeights_bounds (by omega)
    have hlb := loopBig_spec (firstPass totalWeight total weekWeights).2.toNat
      (firstPass totalWeight total weekWeights).1
      (by rw [hfp.2.2.2]; rfl) hfp.2.1
    refine ⟨hlb.1, hlb.2.1, ?_⟩
    rw [hlb.2.2, Int.toNat_of_nonneg hfp.2.2.1]
    omega

/-- Witness for C1 at the concrete total 9. -/
theorem claim_C1_witness :
    (1 : ℤ) ≤ 9 ∧
    ((distributePostsAcrossWeek 9).length = 7 ∧
     (∀ x ∈ distributePostsAcrossWeek 9, 0 ≤ x) ∧
     (distributePostsAcrossWeek 9).sum = 9) :=
  ⟨by norm_num, claim_C1 9 (by norm_num)⟩

/-- **C2.** The distributor obeys the two forced small-N rules: for
`total = 5` it returns exactly `[0,1,1,1,0,1,1]` and for `total = 4`
exactly `[0,1,1,1,1,0,0]`. -/
theorem claim_C2 :
    distributePostsAcrossWeek 5 = [0, 1, 1, 1, 0, 1, 1] ∧
    distributePostsAcrossWeek 4 = [0, 1, 1, 1, 1, 0, 0] := by
  constructor
  · rw [distributePostsAcrossWeek, if_pos (by norm_num), if_pos rfl]
  · rw [distributePostsAcrossWeek, if_pos (by norm_num), if_neg (by norm_num),
      if_pos rfl]

set_option maxHeartbeats 1000000 in
theorem firstPass_one : firstPass totalWeight 1 weekWeights = ([0, 0, 0, 0, 0, 0, 0], 1) := by
  norm_num [weekWeights, totalWeight, firstPass]

set_option maxHeartbeats 1000000 in
theorem firstPass_two : firstPass totalWeight 2 weekWeights = ([0, 0, 0, 0, 0, 0, 0], 2) := by
  norm_num [weekWeights, totalWeight, firstPass]

set_option maxHeartbeats 1000000 in
theorem loopSmall_fuel_one : loopSmall 1 [0, 0, 0, 0, 0, 0, 0] = [0, 0, 0, 0, 0, 1, 0] := by
  norm_num [loopSmall]

set_option maxHeartbeats 1000000 in
theorem loopSmall_fuel_two : loopSmall 2 [0, 0, 0, 0, 0, 0, 0] = [0, 0, 0, 0, 0, 1, 1] := by
  norm_num [loopSmall]

/-- **C10.** For a requested total of 1 the distributor places the single
post on Friday (index 5); for a total of 2, one post on Friday and one on
Saturday — Monday–Thursday receive nothing at these volumes. -/
theorem claim_C10 :
    distributePostsAcrossWeek 1 = [0, 0, 0, 0, 0, 1, 0] ∧
    distributePostsAcrossWeek 2 = [0, 0, 0, 0, 0, 1, 1] := by
  constructor
  · rw [distributePostsAcrossWeek, if_pos (by norm_num), if_neg (by norm_num),
      if_neg (by norm_num)]
    rw [show firstPass totalWeight 1 weekWeights = ([0, 0, 0, 0, 0, 0, 0], 1) from
      firstPass_one]
    exact loopSmall_fuel_one
  · rw [distributePostsAcrossWeek, if_pos (by norm_num), if_neg (by norm_num),
      if_neg (by norm_num)]
    rw [show firstPass totalWeight 2 weekWeights = ([0, 0, 0, 0, 0, 0, 0], 2) from
      firstPass_two]
    exact loopSmall_fuel_two

/-! ## Data model (from `@/types` as used by the embedded modules) -/

/-- `post_type` of a calendar post. -/
inductive PostType where
  | question
  | story
  | advice
deriving DecidableEq, Repr

/-- The fields of `CalendarPost` that the embedded modules read. -/
structure CalendarPost where
  id : String
  topic : String
  persona_id : String
  subreddit_id : String
  post_type : PostType
  planned_title : Option String := none
  day_of_week : ℤ := 0
  posting_strategy : Option String := none
deriving DecidableEq, Repr

/-- A planned reply (`ReplyPlan`). -/
structure ReplyPlan where
  persona_id : String
  intent : String
  hours_after_post : ℚ
deriving DecidableEq, Repr

/-- The fields of `CalendarReply` read by the quality scorer. -/
structure CalendarReply where
  post_id : String
  persona_id : String
  intent : String
  order_after_post : ℚ
  planned_content : Option String := none
deriving DecidableEq, Repr

/-- The fields of `Subreddit` read by the embedded modules. -/
structure Subreddit where
  id : String
  name : String
  max_posts_per_week : ℚ
  min_cooldown_days : ℚ
  size_category : String
  rules : Option String := none
  preferred_post_types : Option (List PostType) := none
  culture_tone : Option String := none
deriving DecidableEq, Repr

/-- The fields of `Persona` read by the embedded modules. -/
structure Persona where
  id : String
  tone : String
  expertise : List String
deriving DecidableEq, Repr

/-- An association-list model of a JavaScript `Map`, iterated in
insertion order. `Map.set` updates an existing key in place, otherwise
appends. -/
def setA {β : Type} : List (String × β) → String → β → List (String × β)
  | [], k, v => [(k, v)]
  | (k0, v0) :: rest, k, v =>
      if k0 = k then (k0, v) :: rest else (k0, v0) :: setA rest k v

/-- `Map.get`: the value at the first (hence unique) occurrence of `k`. -/
def lookupA {β : Type} : List (String × β) → String → Option β
  | [], _ => none
  | (k0, v0) :: rest, k => if k0 = k then some v0 else lookupA rest k

/-! ## Conversation planning (`validateReplyPlans`, unnamed module) -/

/-- The `replyPlans.forEach` body of `validateReplyPlans`, with the
accumulated `validated` map and `personaReplyCounts`: drop the plan when
its post is unknown, when the post has no persona, when the reply persona
equals the post's persona, or when the reply persona already has 3
replies; otherwise retain it and bump the persona's count. -/
def validateGo : List (String × ReplyPlan) → List CalendarPost →
    List (String × String) → List (String × ReplyPlan) → List (String × ℕ) →
    List (String × ReplyPlan)
  | [], _, _, validated, _ => validated
  | (postId, plan) :: rest, posts, postPersonaMap, validated, counts =>
    match posts.find? (fun p => p.id = postId) with
    | none => validateGo rest posts postPersonaMap validated counts
    | some _ =>
      match lookupA postPersonaMap postId with
      | none => validateGo rest posts postPersonaMap validated counts
      | some postPersonaId =>
        if plan.persona_id = postPersonaId then
          validateGo rest posts postPersonaMap validated counts
        else
          let currentCount := (lookupA counts plan.persona_id).getD 0
          if 3 ≤ currentCount then
            validateGo rest posts postPersonaMap validated counts
          else
            validateGo rest posts postPersonaMap
              (validated ++ [(postId, plan)])
              (setA counts plan.persona_id (currentCount + 1))

/-- `validateReplyPlans(replyPlans, posts, postPersonaMap)`: the
`replyPlans` map is modelled as its insertion-ordered entry list. -/
def validateReplyPlans (replyPlans : List (String × ReplyPlan))
    (posts : List CalendarPost) (postPersonaMap : List (String × String)) :
    List (String × ReplyPlan) :=
  validateGo replyPlans posts postPersonaMap [] []

theorem lookupA_setA {β : Type} :
    ∀ (m : List (String × β)) (k k2 : String) (v : β),
    lookupA (setA m k v) k2 = if k = k2 then some v else lookupA m k2 := by
  intro m
  induction m with
  | nil =>
      intro k k2 v
      by_cases h : k = k2 <;> simp [setA, lookupA, h]
  | cons hd rest ih =>
      intro k k2 v
      obtain ⟨k0, v0⟩ := hd
      by_cases h0 : k0 = k
      · subst h0
        by_cases h2 : k0 = k2 <;> simp [setA, lookupA, h2]
      · rw [setA, if_neg h0]
        by_cases h2 : k0 = k2
        · subst h2
          have : ¬k = k0 := fun h => h0 h.symm
          simp [lookupA, this]
        · simp [lookupA, h2, ih]

theorem validateGo_no_self :
    ∀ (plans : List (String × ReplyPlan)) (posts : List CalendarPost)
      (postPersonaMap : List (String × String))
      (validated : List (String × ReplyPlan)) (counts : List (String × ℕ)),
    (∀ e ∈ validated,
      ∃ pp, lookupA postPersonaMap e.1 = some pp ∧ e.2.persona_id ≠ pp) →
    ∀ e ∈ validateGo plans posts postPersonaMap validated counts,
      ∃ pp, lookupA postPersonaMap e.1 = some pp ∧ e.2.persona_id ≠ pp := by
  intro plans
  induction plans with
  | nil =>
      intro posts map validated counts hinv e he
      exact hinv e (by simpa [validateGo] using he)
  | cons hd rest ih =>
      obtain ⟨postId, plan⟩ := hd
      intro posts map validated counts hinv e he
      rw [validateGo] at he
      cases hfind : posts.find? (fun p => p.id = postId) with
      | none =>
          rw [hfind] at he
          exact ih posts map validated counts hinv e he
      | some post =>
          rw [hfind] at he
          cases hlook : lookupA map postId with
          | none =>
              rw [hlook] at he
              exact ih posts map validated counts hinv e he
          | some ppid =>
              rw [hlook] at he
              dsimp only at he
              by_cases heq : plan.persona_id = ppid
              · rw [if_pos heq] at he
                exact ih posts map validated counts hinv e he
              · rw [if_neg heq] at he
                by_cases hcc : 3 ≤ (lookupA counts plan.persona_id).getD 0
                · rw [if_pos hcc] at he
                  exact ih posts map validated counts hinv e he
                · rw [if_neg hcc] at he
                  refine ih posts map _ _ ?_ e he
                  intro f hf
                  rcases List.mem_append.1 hf with h | h
                  · exact hinv f h
                  · have hfe : f = (postId, plan) := by simpa using h
                    subst hfe
                    exact ⟨ppid, hlook, heq⟩

/-- **C3.** For every reply-plan map (hence for every outcome of the
random choices inside `planReplies`), every plan retained by
`validateReplyPlans` replies with a persona different from the parent
post's persona: the map assigns the parent post a persona and the reply's
persona is not it. -/
theorem claim_C3 (replyPlans : List (String × ReplyPlan))
    (posts : List CalendarPost) (postPersonaMap : List (String × String))
    (e : String × ReplyPlan)
    (he : e ∈ validateReplyPlans replyPlans posts postPersonaMap) :
    ∃ postPersona, lookupA postPersonaMap e.1 = some postPersona ∧
      e.2.persona_id ≠ postPersona :=
  validateGo_no_self replyPlans posts postPersonaMap [] []
    (by intro f hf; simp at hf) e he

/-- Witness for C3: a concrete one-post, one-plan run. -/
theorem claim_C3_witness :
    ∃ postPersona,
      lookupA [("p1", "personaA")] ("p1", (⟨"personaB", "ask", 2⟩ : ReplyPlan)).1
        = some postPersona ∧
      ("p1", (⟨"personaB", "ask", 2⟩ : ReplyPlan)).2.persona_id ≠ postPersona :=
  claim_C3
    [("p1", ⟨"personaB", "ask", 2⟩)]
    [⟨"p1", "topic", "personaA", "s1", PostType.question, none, 0, none⟩]
    [("p1", "personaA")]
    ("p1", ⟨"personaB", "ask", 2⟩)
    (by decide)

theorem validateGo_counts :
    ∀ (plans : List (String × ReplyPlan)) (posts : List CalendarPost)
      (postPersonaMap : List (String × String))
      (validated : List (String × ReplyPlan)) (counts : List (String × ℕ)),
    (∀ pid, validated.countP (fun e => e.2.persona_id = pid)
        = (lookupA counts pid).getD 0 ∧ (lookupA counts pid).getD 0 ≤ 3) →
    ∀ pid, (validateGo plans posts postPersonaMap validated counts).countP
      (fun e => e.2.persona_id = pid) ≤ 3 := by
  intro plans
  induction plans with
  | nil =>
      intro posts map validated counts hinv pid
      rw [validateGo]
      rw [(hinv pid).1]
      exact (hinv pid).2
  | cons hd rest ih =>
      obtain ⟨postId, plan⟩ := hd
      intro posts map validated counts hinv pid
      rw [validateGo]
      cases hfind : posts.find? (fun p => p.id = postId) with
      | none => exact ih posts map validated counts hinv pid
      | some post =>
          cases hlook : lookupA map postId with
          | none => exact ih posts map validated counts hinv pid
          | some ppid =>
              dsimp only
              by_cases heq : plan.persona_id = ppid
              · rw [if_pos heq]
                exact ih posts map validated counts hinv pid
              · rw [if_neg heq]
                by_cases hcc : 3 ≤ (lookupA counts plan.persona_id).getD 0
                · rw [if_pos hcc]
                  exact ih posts map validated counts hinv pid
                · rw [if_neg hcc]
                  refine ih posts map _ _ ?_ pid
                  intro q
                  have hcp : (validated ++ [(postId, plan)]).countP
                      (fun e => e.2.persona_id = q)
                      = validated.countP (fun e => e.2.persona_id = q)
                        + (if plan.persona_id = q then 1 else 0) := by
                    rw [List.countP_append]
                    simp [List.countP_cons]
                  rw [hcp, lookupA_setA]
                  by_cases hq : plan.persona_id = q
                  · subst hq
                    rw [if_pos rfl, if_pos rfl]
                    constructor
                    · simp [(hinv plan.persona_id).1]
                    · simp only [Option.getD_some]
                      omega
                  · rw [if_neg hq, if_neg hq]
                    simpa using hinv q

/-- **C4.** For every input reply-plan map, post list and post→persona
map, each persona id appears as the replying persona in at most 3 plans
retained by `validateReplyPlans`. -/
theorem claim_C4 (replyPlans : List (String × ReplyPlan))
    (posts : List CalendarPost) (postPersonaMap : List (String × String))
    (personaId : String) :
    (validateReplyPlans replyPlans posts postPersonaMap).countP
      (fun e => e.2.persona_id = personaId) ≤ 3 :=
  validateGo_counts replyPlans posts postPersonaMap [] []
    (by intro pid; simp [lookupA]) personaId

/-! ## String primitives for the topics and anti-spam modules -/

/-- `hay.startsWith(needle)` on character lists. -/
def startsWithL : List Char → List Char → Bool
  | _, [] => true
  | [], _ :: _ => false
  | a :: as, b :: bs => a == b && startsWithL as bs

/-- `hay.includes(needle)`: some suffix of `hay` starts with `needle`. -/
def jsIncludesL : List Char → List Char → Bool
  | [], needle => needle.isEmpty
  | c :: t, needle => startsWithL (c :: t) needle || jsIncludesL t needle

/-- `String.prototype.includes`. -/
def jsIncludes (hay needle : String) : Bool := jsIncludesL hay.data needle.data

/-- `String.prototype.toLowerCase` (character-wise, ASCII-faithful). -/
def jsToLower (s : String) : String := ⟨s.data.map Char.toLower⟩

/-- The state machine of `split(/\s+/)`: `inWord = true` means `cur`
holds the reversed word read so far, `inWord = false` means we are inside
a whitespace run (a trailing run yields the trailing empty token
JavaScript produces). -/
def jsSplitGo : Bool → List Char → List Char → List (List Char)
  | true, cur, [] => [cur.reverse]
  | false, _, [] => [[]]
  | true, cur, c :: rest =>
    if c.isWhitespace then cur.reverse :: jsSplitGo false [] rest
    else jsSplitGo true (c :: cur) rest
  | false, _, c :: rest =>
    if c.isWhitespace then jsSplitGo false [] rest else jsSplitGo true [c] rest

/-- `s.split(/\s+/)`: splits on maximal whitespace runs, keeping the
empty boundary tokens JavaScript produces for leading/trailing runs. -/
def jsSplitWs (s : String) : List String :=
  (jsSplitGo true [] s.data).map (fun l => ⟨l⟩)

/-- `a || b` for a possibly-missing string, with the empty string falsy
as in JavaScript. -/
def jsOr (a : Option String) (b : String) : String :=
  match a with
  | none => b
  | some s => if s = "" then b else s

/-! ## Topic generation (`src/lib/planning/topics.ts`) -/

/-- The fields of `Company` read by the topics module. -/
structure Company where
  name : String
  description : Option String := none
  target_users : List String
  pain_points : List String
deriving DecidableEq, Repr

/-- A topic-history row; `last_used_date` in milliseconds since epoch
(`none` models a null date). -/
structure TopicHistory where
  topic : String
  last_used_date : Option ℚ
deriving DecidableEq, Repr

/-- A generated topic. -/
structure GeneratedTopic where
  topic : String
  relevance_score : ℚ
  post_type : PostType
deriving DecidableEq, Repr

/-- A raw topic object parsed from the model's JSON (`t.topic`,
`t.title`, `t.post_type` may each be missing). -/
structure RawTopic where
  topic : Option String := none
  title : Option String := none
  post_type : Option PostType := none
deriving DecidableEq, Repr

/-- `const salesyKeywords = [...]` of the output filter. -/
def salesyKeywords : List String :=
  ["buy", "purchase", "sign up", "try now", "get started", "free trial"]

/-- `calculateRelevanceScore(topic, company)`: base 0.5, +0.2 per pain
point mentioned, +0.1 per target user mentioned, −0.3 per salesy keyword
of the shorter internal list, clamped to `[0, 1]`. -/
def calculateRelevanceScore (topic : String) (company : Company) : ℚ :=
  let s1 := company.pain_points.foldl
    (fun score pain =>
      if jsIncludes (jsToLower topic) (jsToLower pain) then score + 2/10 else score)
    (5/10)
  let s2 := company.target_users.foldl
    (fun score user =>
      if jsIncludes (jsToLower topic) (jsToLower user) then score + 1/10 else score)
    s1
  let s3 := ["buy", "purchase", "sign up", "try now"].foldl
    (fun score keyword =>
      if jsIncludes (jsToLower topic) keyword then score - 3/10 else score)
    s2
  min 1 (max 0 s3)

/-- `calculateSimilarity(str1, str2)`: word-set Jaccard similarity of the
lower-cased whitespace splits. -/
def calculateSimilarity (str1 str2 : String) : ℚ :=
  let words1 := jsSplitWs (jsToLower str1)
  let words2 := jsSplitWs (jsToLower str2)
  let intersection := words1.filter (fun w => words2.contains w)
  let union := dedupF (words1 ++ words2)
  (intersection.length : ℚ) / (union.length : ℚ)

/-- The `recentTopics` computation of `generateTopics`: history entries
with a use date, used strictly less than 28 days before `now`, first 10
topics. `now` is `Date.now()` in milliseconds. -/
def recentTopicsOf (now : ℚ) (topicHistory : List TopicHistory) : List String :=
  ((topicHistory.filter (fun t =>
      match t.last_used_date with
      | none => false
      | some d => decide ((now - d) / (1000 * 60 * 60 * 24) < 28))).map
    (fun t => t.topic)).take 10

/-- `generateFallbackTopics(company, count)`: templated topics from the
pain points, round-robin over the three post types, fixed relevance 0.6.
An out-of-range or empty pain point falls back to `"challenges"`. -/
def generateFallbackTopics (company : Company) (count : ℕ) : List GeneratedTopic :=
  (List.range count).map (fun i =>
    let painPoint := jsOr (company.pain_points.get? (i % company.pain_points.length))
      "challenges"
    let postType := [PostType.question, PostType.story, PostType.advice].getD
      (i % 3) PostType.question
    { topic :=
        match postType with
        | PostType.question => "How do you handle " ++ painPoint ++ "?"
        | PostType.story => "My experience with " ++ painPoint
        | PostType.advice => "Tips for dealing with " ++ painPoint
      relevance_score := 6/10
      post_type := postType })

/-- `generateTopics`: on a successful model call (`Except.ok` with the
parsed raw topic array) runs the pure post-processing pipeline — truncate
to `2 * count`, map to scored topics, drop salesy topics, drop topics
more than 0.7-similar to a recent topic, sort by relevance descending,
keep `count`; the `catch` path returns `generateFallbackTopics`. -/
def generateTopics (now : ℚ) (company : Company) (topicHistory : List TopicHistory)
    (count : ℕ) (llmResult : Except String (List RawTopic)) : List GeneratedTopic :=
  let recentTopics := recentTopicsOf now topicHistory
  match llmResult with
  | Except.error _ => generateFallbackTopics company count
  | Except.ok topics =>
      let generated := (((topics.take (count * 2)).map (fun t =>
          { topic := jsOr t.topic (jsOr t.title "")
            relevance_score := calculateRelevanceScore (jsOr t.topic "") company
            post_type := t.post_type.getD PostType.question : GeneratedTopic }))
        |>.filter (fun t =>
            !salesyKeywords.any (fun keyword => jsIncludes (jsToLower t.topic) keyword))
        |>.filter (fun t =>
            !recentTopics.any (fun recent =>
              decide (calculateSimilarity t.topic recent > 7/10))))
      (generated.mergeSort
        (fun a b => decide (b.relevance_score ≤ a.relevance_score))).take count

/-! ### Topic-filter properties (C5, C6) -/

/-- Any topic surviving the successful pipeline passed both filters. -/
theorem generateTopics_ok_filters (now : ℚ) (company : Company)
    (topicHistory : List TopicHistory) (count : ℕ) (raw : List RawTopic)
    (t : GeneratedTopic)
    (ht : t ∈ generateTopics now company topicHistory count (Except.ok raw)) :
    (!salesyKeywords.any (fun keyword => jsIncludes (jsToLower t.topic) keyword)) = true ∧
    (!(recentTopicsOf now topicHistory).any (fun recent =>
        decide (calculateSimilarity t.topic recent > 7/10))) = true := by
  simp only [generateTopics] at ht
  have h1 := List.mem_of_mem_take ht
  have h2 := List.mem_mergeSort.1 h1
  rcases List.mem_filter.1 h2 with ⟨h3, hp2⟩
  rcases List.mem_filter.1 h3 with ⟨_, hp1⟩
  exact ⟨hp1, hp2⟩

/-- The claim C5 as stated (over the fallback path too) is false: with a
single pain point `"sign up"` the fallback returns the topic
`"How do you handle sign up?"`, which contains the promotional keyword
`"sign up"`. -/
theorem claim_C5_counterexample :
    ∃ t ∈ generateTopics 0 ⟨"Acme", none, [], ["sign up"]⟩ [] 1
        (Except.error "OpenAI request failed"),
      jsIncludes t.topic "sign up" = true ∧ "sign up" ∈ salesyKeywords := by
  refine ⟨⟨"How do you handle sign up?", 6/10, PostType.question⟩, ?_, by decide, by decide⟩
  exact List.mem_singleton_self _

/-- **C5 (amended).** On the successful path (no collaborator error),
every topic returned by `generateTopics` is free of every promotional
keyword (checked on the lower-cased topic, hence also literally); the
fallback path taken on collaborator error applies no keyword filter and
can return a topic containing a keyword. -/
theorem claim_C5 (now : ℚ) (company : Company)
    (topicHistory : List TopicHistory) (count : ℕ) (raw : List RawTopic)
    (t : GeneratedTopic)
    (ht : t ∈ generateTopics now company topicHistory count (Except.ok raw)) :
    ∀ keyword ∈ salesyKeywords, jsIncludes (jsToLower t.topic) keyword = false := by
  have h := (generateTopics_ok_filters now company topicHistory count raw t ht).1
  rw [Bool.not_eq_true'] at h
  intro keyword hk
  exact Bool.eq_false_iff.2 fun hx =>
    (List.any_eq_false.1 h keyword hk) hx

/-- Witness for C5 at a concrete successful run and the keyword
`"buy"`. -/
theorem claim_C5_witness :
    jsIncludes (jsToLower "Hello world") "buy" = false := by
  have hmem : (⟨"Hello world",
      calculateRelevanceScore "Hello world" ⟨"Acme", none, [], []⟩,
      PostType.question⟩ : GeneratedTopic)
      ∈ generateTopics 0 ⟨"Acme", none, [], []⟩ [] 1
        (Except.ok [⟨some "Hello world", none, none⟩]) := by
    simp only [generateTopics, recentTopicsOf]
    norm_num [jsOr, List.filter, salesyKeywords]
    refine ⟨by decide, ?_⟩
    congr 1
  exact claim_C5 0 ⟨"Acme", none, [], []⟩ [] 1
    [⟨some "Hello world", none, none⟩] _ hmem "buy" (by decide)

/-- **C6 (amended).** Every topic retained by a successful
`generateTopics` run has word-set Jaccard similarity at most 0.7 (the
code drops only on a STRICT `> 0.7`) with each of the up-to-10 history
topics used within the last 28 days. -/
theorem claim_C6 (now : ℚ) (company : Company)
    (topicHistory : List TopicHistory) (count : ℕ) (raw : List RawTopic)
    (t : GeneratedTopic)
    (ht : t ∈ generateTopics now company topicHistory count (Except.ok raw)) :
    ∀ recent ∈ recentTopicsOf now topicHistory,
      calculateSimilarity t.topic recent ≤ 7/10 := by
  have h := (generateTopics_ok_filters now company topicHistory count raw t ht).2
  rw [Bool.not_eq_true'] at h
  intro recent hr
  have hd := List.any_eq_false.1 h recent hr
  rw [decide_eq_true_eq] at hd
  exact le_of_not_lt hd

theorem c6_sim_eval :
    calculateSimilarity "How do you manage scaling customer support?"
      "How do you handle scaling support?" = 5/8 := by
  rw [calculateSimilarity]
  rw [show ((jsSplitWs (jsToLower "How do you manage scaling customer support?")).filter
      (fun w => (jsSplitWs (jsToLower "How do you handle scaling support?")).contains w)).length
      = 5 from by decide]
  rw [show (dedupF ((jsSplitWs (jsToLower "How do you manage scaling customer support?")) ++
      (jsSplitWs (jsToLower "How do you handle scaling support?")))).length = 8 from by decide]
  norm_num

theorem c6_recent_eval :
    recentTopicsOf 432000000 [⟨"How do you handle scaling support?", some 0⟩]
      = ["How do you handle scaling support?"] := by
  have h28 : ((432000000 : ℚ)) / (1000 * 60 * 60 * 24) < 28 := by norm_num
  simp [recentTopicsOf, List.filter_cons, h28]

theorem c6_mem :
    (⟨"How do you manage scaling customer support?",
      calculateRelevanceScore "How do you manage scaling customer support?"
        ⟨"Acme", none, [], []⟩,
      PostType.question⟩ : GeneratedTopic)
    ∈ generateTopics 432000000 ⟨"Acme", none, [], []⟩
        [⟨"How do you handle scaling support?", some 0⟩] 1
        (Except.ok [⟨some "How do you manage scaling customer support?", none, none⟩]) := by
  have hne : ("How do you manage scaling customer support?" : String) ≠ "" := by decide
  have h1 : jsOr (some "How do you manage scaling customer support?") (jsOr none "") =
      "How do you manage scaling customer support?" := by
    simp only [jsOr]
    rw [if_neg hne]
  have h2 : jsOr (some "How do you manage scaling customer support?") "" =
      "How do you manage scaling customer support?" := by
    simp only [jsOr]
    rw [if_neg hne]
  have hp1 : (!salesyKeywords.any (fun keyword =>
      jsIncludes (jsToLower "How do you manage scaling customer support?") keyword)) = true := by
    decide
  have hp2 : decide (calculateSimilarity "How do you manage scaling customer support?"
      "How do you handle scaling support?" > 7/10) = false :=
    decide_eq_false (by rw [c6_sim_eval]; norm_num)
  simp only [generateTopics, c6_recent_eval]
  norm_num [h1, h2, hp1, hp2, List.filter_cons]

/-- The claim C6 as stated is false on the code: the similarity filter
drops only candidates STRICTLY above 0.7, and the spec's own example pair
has similarity 5/8 = 0.625, so the candidate is retained, not rejected,
even though its history partner was used 5 days ago. -/
theorem claim_C6_counterexample :
    calculateSimilarity "How do you manage scaling customer support?"
      "How do you handle scaling support?" = 5/8 ∧
    (5/8 : ℚ) < 7/10 ∧
    recentTopicsOf 432000000 [⟨"How do you handle scaling support?", some 0⟩]
      = ["How do you handle scaling support?"] ∧
    ∃ t ∈ generateTopics 432000000 ⟨"Acme", none, [], []⟩
        [⟨"How do you handle scaling support?", some 0⟩] 1
        (Except.ok [⟨some "How do you manage scaling customer support?", none, none⟩]),
      t.topic = "How do you manage scaling customer support?" :=
  ⟨c6_sim_eval, by norm_num, c6_recent_eval, ⟨_, c6_mem, rfl⟩⟩

/-- Witness for C6 at the spec's own example pair. -/
theorem claim_C6_witness :
    calculateSimilarity
      (⟨"How do you manage scaling customer support?",
        calculateRelevanceScore "How do you manage scaling customer support?"
          ⟨"Acme", none, [], []⟩,
        PostType.question⟩ : GeneratedTopic).topic
      "How do you handle scaling support?" ≤ 7/10 :=
  claim_C6 432000000 ⟨"Acme", none, [], []⟩
    [⟨"How do you handle scaling support?", some 0⟩] 1
    [⟨some "How do you manage scaling customer support?", none, none⟩]
    _ c6_mem
    "How do you handle scaling support?" (by rw [c6_recent_eval]; exact List.mem_singleton_self _)

/-! ## Subreddit selection (`src/lib/planning/subreddits.ts`)

Dates are modelled as integer day numbers since the Unix epoch (so
`differenceInDays` is subtraction and `getDay()` is `(d + 4) mod 7`,
1 Jan 1970 being a Thursday). -/

/-- A `subreddit_activity` row (dates as day numbers). -/
structure SubredditActivity where
  subreddit_id : String
  company_id : String
  last_post_date : Option ℤ
  posts_this_week : ℚ
  week_start_date : ℤ
deriving DecidableEq, Repr

/-- A scored channel. -/
structure SubredditScore where
  subreddit_id : String
  score : ℚ
  reasons : List String
deriving DecidableEq, Repr

/-- `split` at EVERY separator character (single-character split as in
`split(/[-_\s]/)`, which keeps empty pieces between consecutive
separators). `cur` is the reversed piece read so far. -/
def splitEachGo (p : Char → Bool) (cur : List Char) : List Char → List (List Char)
  | [] => [cur.reverse]
  | c :: rest =>
    if p c then cur.reverse :: splitEachGo p [] rest
    else splitEachGo p (c :: cur) rest

namespace Subreddits

/-- `replace(/^r\//, '')`: strip one leading `r/`. -/
def stripRPrefix (l : List Char) : List Char :=
  match l with
  | 'r' :: '/' :: rest => rest
  | _ => l

/-- `calculateRelevanceScore(subreddit, topic)` of the subreddit module:
keyword match ratio (60%), shared relevant-term bonus (40%), base 0.3,
capped at 1. -/
def calculateRelevanceScore (subreddit : Subreddit) (topic : GeneratedTopic) : ℚ :=
  let subredditName := jsToLower subreddit.name
  let topicLower := jsToLower topic.topic
  let subredditKeywords :=
    ((splitEachGo (fun c => c == '-' || c == '_' || c.isWhitespace) []
        (stripRPrefix subredditName.data)).map (fun l => (⟨l⟩ : String))).filter
      (fun k => k.length > 2)
  let matchCount := subredditKeywords.countP (fun keyword => jsIncludes topicLower keyword)
  let keywordScore := (matchCount : ℚ) / (max 1 subredditKeywords.length : ℕ)
  let nameScore := ["startup", "business", "marketing", "entrepreneur", "saas"].foldl
    (fun acc term =>
      if jsIncludes subredditName term && jsIncludes topicLower term then acc + 2/10
      else acc) 0
  min 1 (keywordScore * (6/10) + nameScore * (4/10) + 3/10)

/-- `checkCooldown(subreddit, activity, targetDate)`. -/
def checkCooldown (subreddit : Subreddit) (activity : Option SubredditActivity)
    (targetDate : ℤ) : ℚ :=
  match activity with
  | none => 1
  | some activity =>
    match activity.last_post_date with
    | none => 1
    | some lastPostDate =>
      let daysSince : ℚ := ((targetDate - lastPostDate : ℤ) : ℚ)
      if daysSince ≥ subreddit.min_cooldown_days then 1
      else
        let daysRemaining := subreddit.min_cooldown_days - daysSince
        max (3/10) (1 - daysRemaining / subreddit.min_cooldown_days * (7/10))

/-- `getWeekStart(date)`: back up to the previous Sunday. -/
def getWeekStart (date : ℤ) : ℤ := date - (date + 4).emod 7

/-- `checkFrequency(subreddit, activity, targetDate)`. -/
def checkFrequency (subreddit : Subreddit) (activity : Option SubredditActivity)
    (targetDate : ℤ) : ℚ :=
  match activity with
  | none => 1
  | some activity =>
    if activity.week_start_date = getWeekStart targetDate then
      let remaining := subreddit.max_posts_per_week - activity.posts_this_week
      if remaining ≤ 0 then 2/10
      else remaining / subreddit.max_posts_per_week
    else 1

/-- `checkSizeAppropriateness(subreddit, topic)`. -/
def checkSizeAppropriateness (subreddit : Subreddit) (topic : GeneratedTopic) : ℚ :=
  if subreddit.size_category = "small" then
    if topic.post_type = PostType.question then 1 else 7/10
  else if subreddit.size_category = "large" then
    if topic.post_type ≠ PostType.question then 1 else 7/10
  else 8/10

/-- `checkRuleCompliance(subreddit, topic)`. -/
def checkRuleCompliance (subreddit : Subreddit) (topic : GeneratedTopic) : Bool :=
  match subreddit.rules with
  | none => true
  | some rules =>
    let rulesLower := jsToLower rules
    if topic.post_type = PostType.story && jsIncludes rulesLower "no personal stories" then
      false
    else if topic.post_type = PostType.advice && jsIncludes rulesLower "no advice posts" then
      false
    else if jsIncludes rulesLower "no self-promotion" &&
        jsIncludes (jsToLower topic.topic) "my product" then
      false
    else true

/-- The body of the `subreddits.map` in `selectSubreddit`: weighted score
with reasons, rule-violation damping, clamp to `[0, 1]`. -/
def scoreSubreddit (activities : List SubredditActivity) (topic : GeneratedTopic)
    (targetDate : ℤ) (companyId : String) (subreddit : Subreddit) : SubredditScore :=
  let activity := activities.find?
    (fun a => a.subreddit_id = subreddit.id && a.company_id = companyId)
  let relevanceScore := calculateRelevanceScore subreddit topic
  let cooldownScore := checkCooldown subreddit activity targetDate
  let frequencyScore := checkFrequency subreddit activity targetDate
  let sizeScore := checkSizeAppropriateness subreddit topic
  let score := relevanceScore * (4/10) + cooldownScore * (3/10)
    + frequencyScore * (2/10) + sizeScore * (1/10)
  let reasons :=
    (if relevanceScore > 7/10 then ["High topic relevance"]
     else if relevanceScore < 3/10 then ["Low topic relevance"] else [])
    ++ (if cooldownScore = 0 then ["Cooldown period not met"]
        else if cooldownScore > 8/10 then ["Cooldown period satisfied"] else [])
    ++ (if frequencyScore = 0 then ["Weekly post limit reached"]
        else if frequencyScore > 8/10 then ["Within posting limits"] else [])
    ++ (if sizeScore > 7/10 then
          ["Appropriate for " ++ subreddit.size_category ++ " subreddit"] else [])
  if checkRuleCompliance subreddit topic then
    { subreddit_id := subreddit.id, score := max 0 (min 1 score), reasons := reasons }
  else
    { subreddit_id := subreddit.id
      score := max 0 (min 1 (score * (3/10)))
      reasons := reasons ++ ["Post type may not be ideal for subreddit rules"] }

/-- The `scores` array of `selectSubreddit`. -/
def subredditScores (subreddits : List Subreddit) (activities : List SubredditActivity)
    (topic : GeneratedTopic) (targetDate : ℤ) (companyId : String) : List SubredditScore :=
  subreddits.map (scoreSubreddit activities topic targetDate companyId)

/-- The `sorted` array: scores sorted descending by score
(`(a, b) => b.score - a.score`, a stable sort). -/
def sortedScores (subreddits : List Subreddit) (activities : List SubredditActivity)
    (topic : GeneratedTopic) (targetDate : ℤ) (companyId : String) : List SubredditScore :=
  (subredditScores subreddits activities topic targetDate companyId).mergeSort
    (fun a b => decide (b.score ≤ a.score))

/-- `selectSubreddit(params)`: empty only when no subreddit was given;
top `min(3, n)` as fallback when every score is below 0.1; otherwise the
positively-scored channels, or the top channel alone. -/
def selectSubreddit (subreddits : List Subreddit) (activities : List SubredditActivity)
    (topic : GeneratedTopic) (targetDate : ℤ) (companyId : String) : List SubredditScore :=
  let sorted := sortedScores subreddits activities topic targetDate companyId
  match sorted with
  | [] => []
  | top :: rest =>
    if top.score < 1/10 then
      (top :: rest).take (min 3 (top :: rest).length)
    else
      let valid := (top :: rest).filter (fun s => decide (s.score > 0))
      if valid.length > 0 then valid else [top]

end Subreddits

/-! ### Channel-selector properties (C7) -/

/-- **C7.** For every non-empty subreddit list (and any activities,
topic, target date and company), `selectSubreddit` returns a non-empty
list sorted descending by score; when the top score is below 0.1 it
returns the top `min(3, n)` channels, and otherwise its head is a
channel of maximal score. -/
theorem claim_C7 (subreddits : List Subreddit) (activities : List SubredditActivity)
    (topic : GeneratedTopic) (targetDate : ℤ) (companyId : String)
    (hne : subreddits ≠ []) :
    Subreddits.selectSubreddit subreddits activities topic targetDate companyId ≠ [] ∧
    List.Sorted (fun a b : SubredditScore => b.score ≤ a.score)
      (Subreddits.selectSubreddit subreddits activities topic targetDate companyId) ∧
    ∀ top rest,
      Subreddits.sortedScores subreddits activities topic targetDate companyId
        = top :: rest →
      (top.score < 1/10 →
        Subreddits.selectSubreddit subreddits activities topic targetDate companyId
          = (top :: rest).take (min 3 (top :: rest).length) ∧
        (Subreddits.selectSubreddit subreddits activities topic targetDate
          companyId).length = min 3 subreddits.length) ∧
      (¬ top.score < 1/10 →
        (Subreddits.selectSubreddit subreddits activities topic targetDate
          companyId).head? = some top ∧
        ∀ s ∈ Subreddits.subredditScores subreddits activities topic targetDate companyId,
          s.score ≤ top.score) := by
  have hlen : (Subreddits.sortedScores subreddits activities topic targetDate
      companyId).length = subreddits.length := by
    rw [Subreddits.sortedScores, List.length_mergeSort, Subreddits.subredditScores,
      List.length_map]
  have hsorted : List.Pairwise (fun a b : SubredditScore => b.score ≤ a.score)
      (Subreddits.sortedScores subreddits activities topic targetDate companyId) := by
    have hp := @List.sorted_mergeSort SubredditScore
      (fun a b : SubredditScore => decide (b.score ≤ a.score))
      (fun a b c hab hbc => decide_eq_true
        (le_trans (of_decide_eq_true hbc) (of_decide_eq_true hab)))
      (fun a b => by rcases le_total b.score a.score with h | h <;> simp [h])
      (Subreddits.subredditScores subreddits activities topic targetDate companyId)
    exact hp.imp (fun h => of_decide_eq_true h)
  cases hs : Subreddits.sortedScores subreddits activities topic targetDate companyId with
  | nil =>
      exfalso
      rw [hs] at hlen
      exact hne (List.length_eq_zero.1 hlen.symm)
  | cons top rest =>
      rw [hs] at hsorted hlen
      have hout : Subreddits.selectSubreddit subreddits activities topic targetDate companyId
          = if top.score < 1/10 then (top :: rest).take (min 3 (top :: rest).length)
            else
              if ((top :: rest).filter (fun s => decide (s.score > 0))).length > 0 then
                (top :: rest).filter (fun s => decide (s.score > 0))
              else [top] := by
        simp only [Subreddits.selectSubreddit]
        rw [hs]
      by_cases htop : top.score < 1/10
      · rw [if_pos htop] at hout
        have hne3 : min 3 (top :: rest).length ≠ 0 := by
          simp only [List.length_cons]
          omega
        refine ⟨?_, ?_, ?_⟩
        · rw [hout]
          cases hm : min 3 (top :: rest).length with
          | zero => exact absurd hm hne3
          | succ k => simp [List.take]
        · rw [hout]
          exact hsorted.sublist (List.take_sublist _ _)
        · intro top' rest' heq
          injection heq with h1 h2
          subst h1; subst h2
          refine ⟨fun _ => ⟨hout, ?_⟩, fun hcon => absurd htop hcon⟩
          rw [hout, List.length_take]
          simp only [List.length_cons] at hlen ⊢
          omega
      · rw [if_neg htop] at hout
        have htop0 : decide (top.score > 0) = true := by
          apply decide_eq_true
          have := not_lt.1 htop
          linarith
        have hfil : (top :: rest).filter (fun s => decide (s.score > 0))
            = top :: rest.filter (fun s => decide (s.score > 0)) :=
          List.filter_cons_of_pos htop0
        rw [hfil] at hout
        have hpos : (top :: rest.filter (fun s => decide (s.score > 0))).length > 0 := by
          simp
        rw [if_pos hpos] at hout
        refine ⟨by rw [hout]; simp, ?_, ?_⟩
        · rw [hout]
          refine hsorted.sublist ?_
          exact (List.filter_sublist _).cons₂ top
        · intro top' rest' heq
          injection heq with h1 h2
          subst h1; subst h2
          refine ⟨fun hcon => absurd hcon htop, fun _ => ⟨by rw [hout]; rfl, ?_⟩⟩
          intro s hmem
          have hmem2 : s ∈ top :: rest := by
            rw [← hs, Subreddits.sortedScores]
            exact List.mem_mergeSort.2 hmem
          rcases List.mem_cons.1 hmem2 with h | h
          · rw [h]
          · exact (List.pairwise_cons.1 hsorted).1 s h

/-- A concrete subreddit for the C7 witness. -/
def c7sub : Subreddit := ⟨"s1", "r/startups", 3, 2, "small", none, none, none⟩

/-- A concrete topic for the C7 witness. -/
def c7topic : GeneratedTopic := ⟨"Scaling a startup", 1/2, PostType.question⟩

/-- Witness for C7 at a concrete one-channel input. -/
theorem claim_C7_witness :
    Subreddits.selectSubreddit [c7sub] [] c7topic 0 "c1" ≠ [] ∧
    List.Sorted (fun a b : SubredditScore => b.score ≤ a.score)
      (Subreddits.selectSubreddit [c7sub] [] c7topic 0 "c1") ∧
    ∀ top rest,
      Subreddits.sortedScores [c7sub] [] c7topic 0 "c1" = top :: rest →
      (top.score < 1/10 →
        Subreddits.selectSubreddit [c7sub] [] c7topic 0 "c1"
          = (top :: rest).take (min 3 (top :: rest).length) ∧
        (Subreddits.selectSubreddit [c7sub] [] c7topic 0 "c1").length
          = min 3 ([c7sub] : List Subreddit).length) ∧
      (¬ top.score < 1/10 →
        (Subreddits.selectSubreddit [c7sub] [] c7topic 0 "c1").head? = some top ∧
        ∀ s ∈ Subreddits.subredditScores [c7sub] [] c7topic 0 "c1",
          s.score ≤ top.score) :=
  claim_C7 [c7sub] [] c7topic 0 "c1" (by simp)

/-! ## Anti-spam and safety rules (unnamed module `anti-spam`) -/

/-- A `SpamWarning` (the union types modelled as strings). -/
structure SpamWarning where
  type : String
  severity : String
  message : String
  subreddit : Option String := none
  recommendation : String
deriving DecidableEq, Repr

/-- A `SpamCheckResult`. -/
structure SpamCheckResult where
  warnings : List SpamWarning
  riskScore : ℚ
  passed : Bool
deriving DecidableEq, Repr

/-- `\w` of JavaScript regexps: ASCII letters, digits, underscore. -/
def isWordCharJS (c : Char) : Bool :=
  ('a' ≤ c && c ≤ 'z') || ('A' ≤ c && c ≤ 'Z') || ('0' ≤ c && c ≤ '9') || c == '_'

/-- `replace(/\s+/g, ' ')`: collapse whitespace runs to single spaces
(`prevWs` remembers whether the previous kept character closed a run). -/
def collapseWsGo (prevWs : Bool) : List Char → List Char
  | [] => []
  | c :: rest =>
    if c.isWhitespace then
      if prevWs then collapseWsGo true rest else ' ' :: collapseWsGo true rest
    else c :: collapseWsGo false rest

/-- `String.prototype.trim` on character lists. -/
def jsTrim (l : List Char) : List Char :=
  ((l.dropWhile (fun c => c.isWhitespace)).reverse.dropWhile
    (fun c => c.isWhitespace)).reverse

namespace AntiSpam

/-- `normalizeTopic(topic)`: lower-case, strip non-word non-space
characters, collapse whitespace, trim. -/
def normalizeTopic (topic : String) : String :=
  ⟨jsTrim (collapseWsGo false
    (((jsToLower topic).data).filter (fun c => isWordCharJS c || c.isWhitespace)))⟩

/-- The 3-word phrases of one post for `detectWordingPatterns`: words of
the lower-cased title (or topic) longer than 4 characters, joined in
sliding windows of three. -/
def phrasesOf (post : CalendarPost) : List String :=
  let words := (jsSplitWs (jsToLower (jsOr post.planned_title
    (jsOr (some post.topic) "")))).filter (fun w => w.length > 4)
  (List.range (words.length - 2)).map (fun i =>
    words.getD i "" ++ " " ++ words.getD (i + 1) "" ++ " " ++ words.getD (i + 2) "")

/-- `detectWordingPatterns(posts)`: phrase counts over all posts, kept
when above 1, sorted descending by count. -/
def detectWordingPatterns (posts : List CalendarPost) : List (String × ℕ) :=
  let allPhrases := posts.flatMap phrasesOf
  (((dedupF allPhrases).map (fun phrase => (phrase, allPhrases.countP (fun x => x = phrase)))).filter
    (fun e => e.2 > 1)).mergeSort (fun a b => decide (b.2 ≤ a.2))

/-- Check 1 of `checkSpamAndSafety` for one subreddit id: overposting
warning when the week's count exceeds the channel's limit, `high` when
STRICTLY above 1.5 × limit, else `medium`; 3 or 2 risk points. -/
def overpostingCheck (posts : List CalendarPost) (subreddits : List Subreddit)
    (subredditId : String) : List SpamWarning × ℚ :=
  match subreddits.find? (fun s => s.id = subredditId) with
  | none => ([], 0)
  | some subreddit =>
    let countN := posts.countP (fun p => p.subreddit_id = subredditId)
    if (countN : ℚ) > subreddit.max_posts_per_week then
      let severity :=
        if (countN : ℚ) > subreddit.max_posts_per_week * (15/10) then "high" else "medium"
      ([{ type := "overposting", severity := severity
          message := "⚠️ Risk of overposting in " ++ subreddit.name ++ ". Currently "
            ++ toString countN ++ " posts, limit is "
            ++ toString subreddit.max_posts_per_week ++ "."
          subreddit := some subreddit.name
          recommendation := "Reduce to " ++ toString subreddit.max_posts_per_week
            ++ " posts or less." }],
        if severity = "high" then 3 else 2)
    else ([], 0)

/-- Check 1 over all counted subreddit ids (`Map` iteration order is
first-occurrence order; pushes and `riskScore` increments per id). -/
def overpostingSection (posts : List CalendarPost) (subreddits : List Subreddit) :
    List SpamWarning × ℚ :=
  let ids := dedupF (posts.map (fun p => p.subreddit_id))
  (ids.flatMap (fun id => (overpostingCheck posts subreddits id).1),
   (ids.map (fun id => (overpostingCheck posts subreddits id).2)).sum)

/-- Check 2: persona imbalance. -/
def personaImbalanceSection (posts : List CalendarPost) : List SpamWarning × ℚ :=
  let counts := (dedupF (posts.map (fun p => p.persona_id))).map
    (fun k => ((posts.countP (fun p => p.persona_id = k) : ℕ) : ℚ))
  if counts.length > 1 then
    let maxC := listMaxQ counts
    let minC := listMinQ counts
    if maxC - minC > (posts.length : ℚ) * (4/10) then
      ([{ type := "persona_imbalance", severity := "medium"
          message := "Uneven persona distribution. Some personas posting "
            ++ toString maxC ++ " times while others post " ++ toString minC ++ " times."
          recommendation := "Distribute posts more evenly across personas." }], 2)
    else ([], 0)
  else ([], 0)

/-- Check 3 for one normalized topic: repetition warning when it occurs
more than once, `high` above 2 occurrences, +2 or +1 risk. -/
def topicRepetitionCheck (posts : List CalendarPost) (topic : String) :
    List SpamWarning × ℚ :=
  let count := posts.countP (fun p => normalizeTopic p.topic = topic)
  if count > 1 then
    ([{ type := "topic_repetition", severity := if count > 2 then "high" else "medium"
        message := "Topic \x22" ++ topic ++ "\x22 appears " ++ toString count
          ++ " times this week."
        recommendation := "Use more diverse topics to avoid repetition." }],
     if count > 2 then 2 else 1)
  else ([], 0)

/-- Check 3 over all normalized topics. -/
def topicRepetitionSection (posts : List CalendarPost) : List SpamWarning × ℚ :=
  let topics := dedupF (posts.map (fun p => normalizeTopic p.topic))
  (topics.flatMap (fun t => (topicRepetitionCheck posts t).1),
   (topics.map (fun t => (topicRepetitionCheck posts t).2)).sum)

/-- Check 4: repeated wording patterns (count above 2), `low`, +1 each. -/
def wordingPatternSection (posts : List CalendarPost) : List SpamWarning × ℚ :=
  let patterns := detectWordingPatterns posts
  (patterns.flatMap (fun pattern =>
    if pattern.2 > 2 then
      [{ type := "wording_pattern", severity := "low"
         message := "Repeated wording pattern detected: \x22"
           ++ (⟨pattern.1.data.take 50⟩ : String) ++ "...\x22"
         recommendation := "Vary your language to sound more natural." }]
    else []),
   (patterns.map (fun pattern => if pattern.2 > 2 then (1 : ℚ) else 0)).sum)

/-- Check 5: repetition against the last 20 posts of previous weeks,
`low`, +0.5 each. -/
def previousWeeksSection (posts : List CalendarPost)
    (previousWeeksPosts : Option (List CalendarPost)) : List SpamWarning × ℚ :=
  match previousWeeksPosts with
  | none => ([], 0)
  | some prev =>
    if prev.length > 0 then
      let recentTopics := (prev.drop (prev.length - 20)).map
        (fun p => normalizeTopic p.topic)
      (posts.flatMap (fun post =>
        if recentTopics.contains (normalizeTopic post.topic) then
          [{ type := "topic_repetition", severity := "low"
             message := "Topic similar to recent posts: \x22"
               ++ (⟨post.topic.data.take 50⟩ : String) ++ "...\x22"
             recommendation := "Use fresh topics to avoid appearing repetitive." }]
        else []),
       (posts.map (fun post =>
         if recentTopics.contains (normalizeTopic post.topic) then (5/10 : ℚ) else 0)).sum)
    else ([], 0)

/-- Check 6 for one adjacent pair of the day-sorted posts: same
subreddit less than 2 days apart with a configured cooldown above 1 day.
(The `subredditLastPost` map built just before this loop in the source is
written but never read, so it is not modelled.) -/
def consecutiveCheck (subreddits : List Subreddit)
    (pr : CalendarPost × CalendarPost) : List SpamWarning × ℚ :=
  if pr.2.subreddit_id = pr.1.subreddit_id ∧ pr.2.day_of_week - pr.1.day_of_week < 2 then
    match subreddits.find? (fun s => s.id = pr.2.subreddit_id) with
    | none => ([], 0)
    | some subreddit =>
      if subreddit.min_cooldown_days > 1 then
        ([{ type := "overposting", severity := "medium"
            message := "Posts too close together in " ++ subreddit.name
              ++ ". Minimum cooldown: " ++ toString subreddit.min_cooldown_days ++ " days."
            subreddit := some subreddit.name
            recommendation := "Space posts at least "
              ++ toString subreddit.min_cooldown_days ++ " days apart." }], 2)
      else ([], 0)
  else ([], 0)

/-- Check 6 over the posts sorted (stably) by day of week. -/
def consecutiveSection (posts : List CalendarPost) (subreddits : List Subreddit) :
    List SpamWarning × ℚ :=
  let sortedPosts := posts.mergeSort (fun a b => decide (a.day_of_week ≤ b.day_of_week))
  let pairs := sortedPosts.zip sortedPosts.tail
  (pairs.flatMap (fun pr => (consecutiveCheck subreddits pr).1),
   (pairs.map (fun pr => (consecutiveCheck subreddits pr).2)).sum)

/-- `checkSpamAndSafety(posts, replies, subreddits, personas,
previousWeeksPosts?)`: the six checks in order; risk capped at 10;
passed iff risk below 5 and no high-severity warning. The `replies` and
`personas` parameters are unused, as in the source. -/
def checkSpamAndSafety (posts : List CalendarPost) (_replies : List CalendarReply)
    (subreddits : List Subreddit) (_personas : List Persona)
    (previousWeeksPosts : Option (List CalendarPost)) : SpamCheckResult :=
  let s1 := overpostingSection posts subreddits
  let s2 := personaImbalanceSection posts
  let s3 := topicRepetitionSection posts
  let s4 := wordingPatternSection posts
  let s5 := previousWeeksSection posts previousWeeksPosts
  let s6 := consecutiveSection posts subreddits
  let warnings := s1.1 ++ s2.1 ++ s3.1 ++ s4.1 ++ s5.1 ++ s6.1
  let riskScore := s1.2 + s2.2 + s3.2 + s4.2 + s5.2 + s6.2
  { warnings := warnings
    riskScore := min 10 riskScore
    passed := decide (riskScore < 5) &&
      decide ((warnings.filter (fun w => w.severity = "high")).length = 0) }

end AntiSpam

/-! ### Overposting properties (C9) -/

/-- **C9 (amended).** Every channel found in the configuration whose
weekly post count exceeds its `max_posts_per_week` produces an
overposting warning; its severity is `high` exactly when the count
STRICTLY exceeds 1.5 × the limit (not at exactly 1.5 ×) and `medium`
otherwise, and the overposting check adds 3 risk points for `high` and
2 for `medium`. -/
theorem claim_C9 (posts : List CalendarPost) (replies : List CalendarReply)
    (subreddits : List Subreddit) (personas : List Persona)
    (prev : Option (List CalendarPost)) (sid : String) (sub : Subreddit)
    (hmem : sid ∈ dedupF (posts.map (fun p => p.subreddit_id)))
    (hfind : subreddits.find? (fun s => s.id = sid) = some sub)
    (hover : ((posts.countP (fun p => p.subreddit_id = sid) : ℕ) : ℚ)
      > sub.max_posts_per_week) :
    ∃ w ∈ (AntiSpam.checkSpamAndSafety posts replies subreddits personas prev).warnings,
      w.type = "overposting" ∧ w.subreddit = some sub.name ∧
      w.severity = (if ((posts.countP (fun p => p.subreddit_id = sid) : ℕ) : ℚ)
          > sub.max_posts_per_week * (15/10) then "high" else "medium") ∧
      (AntiSpam.overpostingCheck posts subreddits sid).2
        = (if w.severity = "high" then (3 : ℚ) else 2) := by
  have hw : ∃ w risk, AntiSpam.overpostingCheck posts subreddits sid = ([w], risk) ∧
      w.type = "overposting" ∧ w.subreddit = some sub.name ∧
      w.severity = (if ((posts.countP (fun p => p.subreddit_id = sid) : ℕ) : ℚ)
          > sub.max_posts_per_week * (15/10) then "high" else "medium") ∧
      risk = (if w.severity = "high" then (3 : ℚ) else 2) := by
    rw [AntiSpam.overpostingCheck, hfind]
    dsimp only
    rw [if_pos hover]
    exact ⟨_, _, rfl, rfl, rfl, rfl, rfl⟩
  obtain ⟨w, risk, hck, h1, h2, h3, h4⟩ := hw
  refine ⟨w, ?_, h1, h2, h3, by rw [hck]; exact h4⟩
  simp only [AntiSpam.checkSpamAndSafety]
  apply List.mem_append_left
  apply List.mem_append_left
  apply List.mem_append_left
  apply List.mem_append_left
  apply List.mem_append_left
  simp only [AntiSpam.overpostingSection]
  exact List.mem_flatMap.2 ⟨sid, hmem, by rw [hck]; exact List.mem_singleton_self w⟩

/-- Three posts into one two-posts-per-week subreddit (C9 inputs). -/
def c9posts : List CalendarPost :=
  [⟨"p1", "alpha", "a", "s1", PostType.question, none, 0, none⟩,
   ⟨"p2", "beta", "a", "s1", PostType.story, none, 2, none⟩,
   ⟨"p3", "gamma", "a", "s1", PostType.advice, none, 4, none⟩]

/-- The C9 subreddit: limit 2 per week, cooldown 1 day. -/
def c9sub : Subreddit := ⟨"s1", "r/test", 2, 1, "small", none, none, none⟩

theorem c9_find : List.find? (fun s => decide (s.id = "s1")) [c9sub] = some c9sub :=
  List.find?_cons_of_pos _ (by decide)

theorem c9_count : c9posts.countP (fun p => p.subreddit_id = "s1") = 3 := by decide

theorem c9_over : ((c9posts.countP (fun p => p.subreddit_id = "s1") : ℕ) : ℚ)
    > c9sub.max_posts_per_week := by
  rw [c9_count]
  norm_num [c9sub]

/-- Witness for C9 at the concrete three-post input. -/
theorem claim_C9_witness :
    ∃ w ∈ (AntiSpam.checkSpamAndSafety c9posts [] [c9sub] [] none).warnings,
      w.type = "overposting" ∧ w.subreddit = some c9sub.name ∧
      w.severity = (if ((c9posts.countP (fun p => p.subreddit_id = "s1") : ℕ) : ℚ)
          > c9sub.max_posts_per_week * (15/10) then "high" else "medium") ∧
      (AntiSpam.overpostingCheck c9posts [c9sub] "s1").2
        = (if w.severity = "high" then (3 : ℚ) else 2) :=
  claim_C9 c9posts [] [c9sub] [] none "s1" c9sub (by decide) c9_find c9_over

/-- Check 6 issues no warning when no configured cooldown exceeds one
day. -/
theorem consecutiveSection_nil (posts : List CalendarPost) (subreddits : List Subreddit)
    (h : ∀ s ∈ subreddits, ¬ ((1 : ℚ) < s.min_cooldown_days)) :
    (AntiSpam.consecutiveSection posts subreddits).1 = [] := by
  simp only [AntiSpam.consecutiveSection]
  apply List.flatMap_eq_nil_iff.2
  intro pr _
  rw [AntiSpam.consecutiveCheck]
  split
  · cases hfind : subreddits.find? (fun s => s.id = pr.2.subreddit_id) with
    | none => rfl
    | some sub =>
        have hsub := List.mem_of_find?_eq_some hfind
        dsimp only
        rw [if_neg (h sub hsub)]
  · rfl

theorem c9_nothigh : ¬ (((c9posts.countP (fun p => p.subreddit_id = "s1") : ℕ) : ℚ)
    > c9sub.max_posts_per_week * (15/10)) := by
  rw [c9_count]
  norm_num [c9sub]

/-- The single overposting warning of the C9 run, with `medium`
severity. -/
theorem c9_check_eval : ∃ w, AntiSpam.overpostingCheck c9posts [c9sub] "s1" = ([w], 2) ∧
    w.type = "overposting" ∧ w.severity = "medium" := by
  rw [AntiSpam.overpostingCheck, c9_find]
  dsimp only
  rw [if_pos c9_over, if_neg c9_nothigh]
  rw [if_neg (show ¬ ("medium" : String) = "high" from by decide)]
  exact ⟨_, rfl, rfl, rfl⟩

/-- The full warning list of the C9 run is that single warning. -/
theorem c9_warnings_eval : ∃ w,
    (AntiSpam.checkSpamAndSafety c9posts [] [c9sub] [] none).warnings = [w] ∧
    w.type = "overposting" ∧ w.severity = "medium" := by
  obtain ⟨w, hck, h1, h2⟩ := c9_check_eval
  refine ⟨w, ?_, h1, h2⟩
  simp only [AntiSpam.checkSpamAndSafety]
  rw [show (AntiSpam.overpostingSection c9posts [c9sub]).1 = [w] by
    simp only [AntiSpam.overpostingSection]
    rw [show dedupF (c9posts.map (fun p => p.subreddit_id)) = ["s1"] from by decide]
    simp [hck]]
  rw [show (AntiSpam.personaImbalanceSection c9posts).1 = [] from by decide]
  rw [show (AntiSpam.topicRepetitionSection c9posts).1 = [] from by decide]
  rw [show (AntiSpam.wordingPatternSection c9posts).1 = [] from by
    simp only [AntiSpam.wordingPatternSection, AntiSpam.detectWordingPatterns]
    rw [show c9posts.flatMap AntiSpam.phrasesOf = [] from by decide]
    simp [dedupF, dedupFGo]]
  rw [show (AntiSpam.previousWeeksSection c9posts none).1 = [] from rfl]
  rw [consecutiveSection_nil c9posts [c9sub]
    (by intro s hs; rw [List.mem_singleton.1 hs]; norm_num [c9sub])]
  simp

/-- The claim C9 as stated is false on the code: at count = 3 with limit
2 the count equals 1.5 × the limit, the claim demands `high`, but the
code (strict `>`) produces `medium` and no `high` warning at all. -/
theorem claim_C9_counterexample :
    ((3 : ℚ) ≥ c9sub.max_posts_per_week * (15/10)) ∧
    (∃ w ∈ (AntiSpam.checkSpamAndSafety c9posts [] [c9sub] [] none).warnings,
      w.type = "overposting" ∧ w.severity = "medium") ∧
    (∀ w ∈ (AntiSpam.checkSpamAndSafety c9posts [] [c9sub] [] none).warnings,
      ¬ w.severity = "high") := by
  obtain ⟨w, hwarn, h1, h2⟩ := c9_warnings_eval
  refine ⟨by norm_num [c9sub], ⟨w, by rw [hwarn]; exact List.mem_singleton_self w, h1, h2⟩, ?_⟩
  intro w' hw'
  rw [hwarn] at hw'
  rw [List.mem_singleton.1 hw', h2]
  decide

/-! ## Quality evaluation (`src/lib/planning/quality.ts`) -/

/-- A `CalendarQualityScore`. -/
structure CalendarQualityScore where
  overall : ℚ
  topic_diversity : ℚ
  persona_rotation : ℚ
  subreddit_distribution : ℚ
  reply_naturalness : ℚ
  realism : ℚ
  subreddit_fit : ℚ
  spam_risk : ℚ
  persona_distinctiveness : ℚ
  issues : List String
deriving DecidableEq, Repr

namespace Quality

/-- `calculateVariance(values)`. -/
def calculateVariance (values : List ℚ) : ℚ :=
  if values.length = 0 then 0
  else
    let mean := values.sum / (values.length : ℚ)
    ((values.map (fun v => (v - mean) ^ 2)).sum) / (values.length : ℚ)

/-- Metric 1, topic diversity: distinct-topic ratio × 10. -/
def topicDiversityOf (posts : List CalendarPost) : ℚ :=
  ((dedupF (posts.map (fun p => p.topic))).length : ℚ) / (posts.length : ℚ) * 10

/-- The per-persona post counts, in `Map` insertion order. -/
def personaValuesOf (posts : List CalendarPost) : List ℚ :=
  (dedupF (posts.map (fun p => p.persona_id))).map
    (fun k => ((posts.countP (fun p => p.persona_id = k) : ℕ) : ℚ))

/-- Metric 2 before the consecutive-posting penalty: `10 − 20 ×
(max − min)/avg` floored at 0, or the neutral 5 for a single persona. -/
def personaRotation0Of (posts : List CalendarPost) : ℚ :=
  let personaValues := personaValuesOf posts
  if personaValues.length > 1 then
    let minV := listMinQ personaValues
    let maxV := listMaxQ personaValues
    let avg := personaValues.sum / (personaValues.length : ℚ)
    max 0 (10 - (maxV - minV) / avg * 20)
  else 5

/-- The number of adjacent same-persona post pairs. -/
def consecutiveSamePersonaOf (posts : List CalendarPost) : ℕ :=
  (posts.zip posts.tail).countP (fun pr => pr.2.persona_id = pr.1.persona_id)

/-- Metric 2: the rotation score, −2 when personas post consecutively
too often (no clamp after the penalty). -/
def personaRotationOf (posts : List CalendarPost) : ℚ :=
  if (consecutiveSamePersonaOf posts : ℚ) > (posts.length : ℚ) * (3/10) then
    personaRotation0Of posts - 2
  else personaRotation0Of posts

/-- The per-subreddit post counts, in `Map` insertion order. -/
def subredditValuesOf (posts : List CalendarPost) : List ℚ :=
  (dedupF (posts.map (fun p => p.subreddit_id))).map
    (fun k => ((posts.countP (fun p => p.subreddit_id = k) : ℕ) : ℚ))

/-- Metric 3, subreddit distribution: `10 − 5 × (max/avg − 1)` floored
at 0, or the neutral 5 for a single subreddit. -/
def subredditDistributionOf (posts : List CalendarPost) : ℚ :=
  let subredditValues := subredditValuesOf posts
  if subredditValues.length > 1 then
    let maxV := listMaxQ subredditValues
    let avg := subredditValues.sum / (subredditValues.length : ℚ)
    max 0 (10 - (maxV / avg - 1) * 5)
  else 5

/-- `replies.length / posts.length`. -/
def replyRateOf (posts : List CalendarPost) (replies : List CalendarReply) : ℚ :=
  (replies.length : ℚ) / (posts.length : ℚ)

/-- Metric 4 base: 8 inside the 50–80 % reply-rate band, else 5. -/
def replyNat1 (posts : List CalendarPost) (replies : List CalendarReply) : ℚ :=
  if replyRateOf posts replies < 5/10 ∨ replyRateOf posts replies > 8/10 then 5 else 8

/-- Metric 4 after the timing-uniformity penalty. -/
def replyNat2 (posts : List CalendarPost) (replies : List CalendarReply) : ℚ :=
  if calculateVariance (replies.map (fun r => r.order_after_post)) < 2 then
    replyNat1 posts replies - 2
  else replyNat1 posts replies

/-- Metric 4 after the intent-variety penalty. -/
def replyNat3 (posts : List CalendarPost) (replies : List CalendarReply) : ℚ :=
  if (dedupF (replies.map (fun r => r.intent))).length < 3 then
    replyNat2 posts replies - 1
  else replyNat2 posts replies

/-- The replies whose poster persona equals the parent post's persona. -/
def selfRepliesOf (posts : List CalendarPost) (replies : List CalendarReply) :
    List CalendarReply :=
  replies.filter (fun r =>
    match posts.find? (fun p => p.id = r.post_id) with
    | some post => post.persona_id = r.persona_id
    | none => false)

/-- Metric 4 after the self-reply penalty. -/
def replyNat4 (posts : List CalendarPost) (replies : List CalendarReply) : ℚ :=
  if (selfRepliesOf posts replies).length > 0 then replyNat3 posts replies - 3
  else replyNat3 posts replies

/-- Metric 4, reply naturalness, clamped to `[0, 10]`. -/
def replyNaturalnessOf (posts : List CalendarPost) (replies : List CalendarReply) : ℚ :=
  max 0 (min 10 (replyNat4 posts replies))

/-- `evaluateRealism(posts, replies)`: base 5, +2 for post-type variety,
up to +2 for reply content, +1 for timing variation, +1 for strategy
variety, clamped to `[0, 10]`. -/
def evaluateRealism (posts : List CalendarPost) (replies : List CalendarReply) : ℚ :=
  let s1 : ℚ := if (dedupF (posts.map (fun p => p.post_type))).length ≥ 2 then 5 + 2 else 5
  let repliesWithContent := replies.filter (fun r =>
    match r.planned_content with
    | some c => c.length > 20
    | none => false)
  let s2 := s1 + ((repliesWithContent.length : ℚ) / ((max 1 replies.length : ℕ) : ℚ)) * 2
  let s3 := if calculateVariance (replies.map (fun r => r.order_after_post)) > 5 then
    s2 + 1 else s2
  let strategies := posts.filterMap (fun p =>
    p.posting_strategy.bind (fun s => if s = "" then none else some s))
  let s4 := if strategies.length > 0 ∧ (dedupF strategies).length ≥ 3 then s3 + 1 else s3
  min 10 (max 0 s4)

/-- The per-post fit used by `evaluateSubredditFit` (only posts whose
subreddit is found are counted): base 5, +2 on a preferred post type,
+1 on a tone match. -/
def fitsOf (posts : List CalendarPost) (subreddits : List Subreddit) : List ℚ :=
  posts.filterMap (fun post =>
    (subreddits.find? (fun s => s.id = post.subreddit_id)).map (fun subreddit =>
      let fit : ℚ := 5
      let preferredTypes := subreddit.preferred_post_types.getD
        [PostType.question, PostType.story, PostType.advice]
      let f1 := if post.post_type ∈ preferredTypes then fit + 2 else fit
      let cultureTone := jsOr subreddit.culture_tone "casual"
      if cultureTone = "casual" ∧ post.post_type ≠ PostType.advice then f1 + 1
      else if cultureTone = "professional" ∧ post.post_type = PostType.advice then f1 + 1
      else f1))

/-- `evaluateSubredditFit(posts, subreddits)`. -/
def evaluateSubredditFit (posts : List CalendarPost) (subreddits : List Subreddit) : ℚ :=
  if posts.length = 0 then 5
  else
    let fits := fitsOf posts subreddits
    if fits.length > 0 then fits.sum / (fits.length : ℚ) else 5

/-- The post-type sets per persona, in `Map` insertion order. -/
def typeSetsOf (posts : List CalendarPost) : List (List PostType) :=
  (dedupF (posts.map (fun p => p.persona_id))).map
    (fun pid => dedupF ((posts.filter (fun p => p.persona_id = pid)).map
      (fun p => p.post_type)))

/-- The number of persona pairs with overlapping post-type sets. -/
def overlapCount : List (List PostType) → ℕ
  | [] => 0
  | x :: rest => rest.countP (fun y => x.any (fun t => y.contains t)) + overlapCount rest

/-- `evaluatePersonaDistinctiveness(posts, replies, personas)`. -/
def evaluatePersonaDistinctiveness (posts : List CalendarPost)
    (_replies : List CalendarReply) (personas : List Persona) : ℚ :=
  if personas.length < 2 then 5
  else
    let typeSets := typeSetsOf posts
    let distinctiveness : ℚ :=
      if typeSets.length > 1 then
        let totalPairs : ℚ := ((typeSets.length * (typeSets.length - 1) : ℕ) : ℚ) / 2
        let overlapRatio := if totalPairs > 0 then (overlapCount typeSets : ℚ) / totalPairs
          else 0
        10 - overlapRatio * 5
      else 5
    max 0 (min 10 distinctiveness)

/-- Metric 6 with its neutral default. -/
def subredditFitOf (posts : List CalendarPost) (subreddits : List Subreddit) : ℚ :=
  if subreddits.length > 0 then evaluateSubredditFit posts subreddits else 5

/-- Metric 7 with its neutral default: 10 minus the anti-spam risk,
floored at 0. -/
def spamRiskOf (posts : List CalendarPost) (replies : List CalendarReply)
    (subreddits : List Subreddit) (personas : List Persona)
    (previousWeeksPosts : List CalendarPost) : ℚ :=
  if subreddits.length > 0 ∧ personas.length > 0 then
    max 0 (10 - (AntiSpam.checkSpamAndSafety posts replies subreddits personas
      (some previousWeeksPosts)).riskScore)
  else 5

/-- Metric 8 with its neutral default. -/
def personaDistinctivenessOf (posts : List CalendarPost) (replies : List CalendarReply)
    (personas : List Persona) : ℚ :=
  if personas.length > 1 then evaluatePersonaDistinctiveness posts replies personas
  else 5

/-- The weighted overall score before rounding. -/
def overallOf (posts : List CalendarPost) (replies : List CalendarReply)
    (subreddits : List Subreddit) (personas : List Persona)
    (previousWeeksPosts : List CalendarPost) : ℚ :=
  topicDiversityOf posts * (15/100) +
  personaRotationOf posts * (15/100) +
  subredditDistributionOf posts * (15/100) +
  replyNaturalnessOf posts replies * (15/100) +
  evaluateRealism posts replies * (15/100) +
  subredditFitOf posts subreddits * (10/100) +
  spamRiskOf posts replies subreddits personas previousWeeksPosts * (10/100) +
  personaDistinctivenessOf posts replies personas * (5/100)

/-- The `issues` list, in push order. -/
def issuesOf (posts : List CalendarPost) (replies : List CalendarReply)
    (subreddits : List Subreddit) (personas : List Persona)
    (previousWeeksPosts : List CalendarPost) : List String :=
  (if ((dedupF (posts.map (fun p => p.topic))).length : ℚ) / (posts.length : ℚ) < 8/10 then
    ["Low topic diversity - some topics repeated"] else []) ++
  (if personaRotation0Of posts < 6 then ["Uneven persona distribution"] else []) ++
  (if (consecutiveSamePersonaOf posts : ℚ) > (posts.length : ℚ) * (3/10) then
    ["Personas posting consecutively too often"] else []) ++
  (if subredditDistributionOf posts < 6 then
    ["Posts concentrated in too few subreddits"] else []) ++
  (if replyRateOf posts replies < 5/10 ∨ replyRateOf posts replies > 8/10 then
    ["Reply rate " ++ toString (jround (replyRateOf posts replies * 100))
      ++ "% - should be 60-70%"] else []) ++
  (if calculateVariance (replies.map (fun r => r.order_after_post)) < 2 then
    ["Reply timings too uniform"] else []) ++
  (if (dedupF (replies.map (fun r => r.intent))).length < 3 then
    ["Limited reply intent variety"] else []) ++
  (if (selfRepliesOf posts replies).length > 0 then
    [toString (selfRepliesOf posts replies).length ++ " self-replies detected"] else []) ++
  (if evaluateRealism posts replies < 7 then
    ["Content may feel too robotic or formulaic"] else []) ++
  (if subreddits.length > 0 ∧ evaluateSubredditFit posts subreddits < 6 then
    ["Some posts may not match subreddit culture"] else []) ++
  (if subreddits.length > 0 ∧ personas.length > 0 ∧
      (AntiSpam.checkSpamAndSafety posts replies subreddits personas
        (some previousWeeksPosts)).riskScore > 5 then
    ["High spam risk detected ("
      ++ toString (jround1 (AntiSpam.checkSpamAndSafety posts replies subreddits personas
          (some previousWeeksPosts)).riskScore) ++ "/10)"] else []) ++
  (if personas.length > 1 ∧ evaluatePersonaDistinctiveness posts replies personas < 6 then
    ["Personas may not be distinct enough in their posting patterns"] else [])

/-- `evaluateCalendarQuality({posts, replies, subreddits = [],
personas = [], previousWeeksPosts = []})`: all eight metrics, weighted
overall, every number rounded to one decimal (numeric string formatting
inside issue messages is approximated with `toString`). -/
def evaluateCalendarQuality (posts : List CalendarPost) (replies : List CalendarReply)
    (subreddits : List Subreddit) (personas : List Persona)
    (previousWeeksPosts : List CalendarPost) : CalendarQualityScore :=
  { overall := jround1 (overallOf posts replies subreddits personas previousWeeksPosts)
    topic_diversity := jround1 (topicDiversityOf posts)
    persona_rotation := jround1 (personaRotationOf posts)
    subreddit_distribution := jround1 (subredditDistributionOf posts)
    reply_naturalness := jround1 (replyNaturalnessOf posts replies)
    realism := jround1 (evaluateRealism posts replies)
    subreddit_fit := jround1 (subredditFitOf posts subreddits)
    spam_risk := jround1 (spamRiskOf posts replies subreddits personas previousWeeksPosts)
    persona_distinctiveness :=
      jround1 (personaDistinctivenessOf posts replies personas)
    issues := issuesOf posts replies subreddits personas previousWeeksPosts }

end Quality

/-! ### Bounds for the quality metrics (C8) -/

theorem le_foldl_max : ∀ (l : List ℚ) (a : ℚ), a ≤ l.foldl max a := by
  intro l
  induction l with
  | nil => intro a; exact le_refl a
  | cons b t ih => intro a; exact le_trans (le_max_left a b) (ih (max a b))

theorem mem_le_foldl_max : ∀ (l : List ℚ) (a y : ℚ), y ∈ l → y ≤ l.foldl max a := by
  intro l
  induction l with
  | nil => intro a y hy; simp at hy
  | cons b t ih =>
      intro a y hy
      rcases List.mem_cons.1 hy with h | h
      · rw [h]
        exact le_trans (le_max_right a b) (le_foldl_max t (max a b))
      · exact ih (max a b) y h

theorem foldl_min_le : ∀ (l : List ℚ) (a : ℚ), l.foldl min a ≤ a := by
  intro l
  induction l with
  | nil => intro a; exact le_refl a
  | cons b t ih => intro a; exact le_trans (ih (min a b)) (min_le_left a b)

theorem le_listMaxQ {l : List ℚ} {x : ℚ} (hx : x ∈ l) : x ≤ listMaxQ l := by
  cases l with
  | nil => simp at hx
  | cons h t =>
      rcases List.mem_cons.1 hx with hh | hh
      · rw [hh, listMaxQ]; exact le_foldl_max t h
      · rw [listMaxQ]; exact mem_le_foldl_max t h x hh

theorem listMinQ_le {l : List ℚ} {x : ℚ} (hx : x ∈ l) : listMinQ l ≤ x := by
  cases l with
  | nil => simp at hx
  | cons h t =>
      rcases List.mem_cons.1 hx with hh | hh
      · rw [hh, listMinQ]; exact foldl_min_le t h
      · rw [listMinQ]
        clear hx
        induction t generalizing h with
        | nil => simp at hh
        | cons b t2 ih =>
            rcases List.mem_cons.1 hh with h2 | h2
            · rw [h2]
              exact le_trans (foldl_min_le t2 (min h b)) (min_le_right h b)
            · exact ih (min h b) h2

theorem listMinQ_le_listMaxQ {l : List ℚ} (hne : l ≠ []) :
    listMinQ l ≤ listMaxQ l := by
  cases l with
  | nil => exact absurd rfl hne
  | cons h t =>
      exact le_trans (listMinQ_le (l := h :: t) (x := h) (by simp))
        (le_listMaxQ (l := h :: t) (x := h) (by simp))

/-- Every per-key count of an occurring key is at least 1. -/
theorem countsOf_ge_one (posts : List CalendarPost) (f : CalendarPost → String) :
    ∀ v ∈ (dedupF (posts.map f)).map
      (fun k => ((posts.countP (fun p => f p = k) : ℕ) : ℚ)), 1 ≤ v := by
  intro v hv
  rcases List.mem_map.1 hv with ⟨k, hk, hkv⟩
  rcases List.mem_map.1 (mem_dedupF.1 hk) with ⟨p, hp, hpk⟩
  have hpos : 0 < posts.countP (fun p => f p = k) :=
    List.countP_pos_iff.2 ⟨p, hp, by simp [hpk]⟩
  rw [← hkv]
  exact_mod_cast hpos

theorem avg_pos {l : List ℚ} (hne : l ≠ []) (h1 : ∀ v ∈ l, 1 ≤ v) :
    0 < l.sum / (l.length : ℚ) := by
  have hlen : 0 < l.length := List.length_pos.2 hne
  have hsum : (l.length : ℚ) * 1 ≤ l.sum := by
    have := List.card_nsmul_le_sum l 1 h1
    simpa [nsmul_eq_mul] using this
  apply div_pos
  · have : (0 : ℚ) < (l.length : ℚ) := by exact_mod_cast hlen
    linarith
  · exact_mod_cast hlen

theorem avg_le_listMaxQ {l : List ℚ} (hne : l ≠ []) :
    l.sum / (l.length : ℚ) ≤ listMaxQ l := by
  have hlen : 0 < l.length := List.length_pos.2 hne
  have hlenQ : (0 : ℚ) < (l.length : ℚ) := by exact_mod_cast hlen
  rw [div_le_iff₀ hlenQ]
  have := List.sum_le_card_nsmul l (listMaxQ l) (fun x hx => le_listMaxQ hx)
  simpa [nsmul_eq_mul, mul_comm] using this

theorem topicDiversity_bounds (posts : List CalendarPost) (hne : posts ≠ []) :
    0 ≤ Quality.topicDiversityOf posts ∧ Quality.topicDiversityOf posts ≤ 10 := by
  have hlen : 0 < posts.length := List.length_pos.2 hne
  have hlenQ : (0 : ℚ) < (posts.length : ℚ) := by exact_mod_cast hlen
  have hdd : ((dedupF (posts.map (fun p => p.topic))).length : ℚ) ≤ (posts.length : ℚ) := by
    have := length_dedupF_le (posts.map (fun p => p.topic))
    rw [List.length_map] at this
    exact_mod_cast this
  rw [Quality.topicDiversityOf]
  constructor
  · positivity
  · have hr : ((dedupF (posts.map (fun p => p.topic))).length : ℚ) / (posts.length : ℚ) ≤ 1 :=
      (div_le_one hlenQ).2 hdd
    linarith

theorem personaRotation0_bounds (posts : List CalendarPost) :
    0 ≤ Quality.personaRotation0Of posts ∧ Quality.personaRotation0Of posts ≤ 10 := by
  rw [Quality.personaRotation0Of]
  dsimp only
  split
  · rename_i hlen
    have hvne : Quality.personaValuesOf posts ≠ [] := by
      intro hcon
      rw [hcon] at hlen
      simp at hlen
    have h1 : ∀ v ∈ Quality.personaValuesOf posts, 1 ≤ v := by
      intro v hv
      exact countsOf_ge_one posts (fun p => p.persona_id) v hv
    have hap := avg_pos hvne h1
    have hmm := listMinQ_le_listMaxQ hvne
    have hvr : 0 ≤ (listMaxQ (Quality.personaValuesOf posts)
        - listMinQ (Quality.personaValuesOf posts))
        / ((Quality.personaValuesOf posts).sum
          / ((Quality.personaValuesOf posts).length : ℚ)) * 20 := by
      apply mul_nonneg _ (by norm_num)
      exact div_nonneg (by linarith) (le_of_lt hap)
    exact ⟨le_max_left _ _, max_le (by norm_num) (by linarith)⟩
  · norm_num

theorem personaRotation_bounds (posts : List CalendarPost) :
    -2 ≤ Quality.personaRotationOf posts ∧ Quality.personaRotationOf posts ≤ 10 := by
  have h0 := personaRotation0_bounds posts
  rw [Quality.personaRotationOf]
  split
  · exact ⟨by linarith [h0.1], by linarith [h0.2]⟩
  · exact ⟨by linarith [h0.1], h0.2⟩

theorem subredditDistribution_bounds (posts : List CalendarPost) :
    0 ≤ Quality.subredditDistributionOf posts ∧
    Quality.subredditDistributionOf posts ≤ 10 := by
  rw [Quality.subredditDistributionOf]
  dsimp only
  split
  · rename_i hlen
    have hvne : Quality.subredditValuesOf posts ≠ [] := by
      intro hcon
      rw [hcon] at hlen
      simp at hlen
    have h1 : ∀ v ∈ Quality.subredditValuesOf posts, 1 ≤ v := by
      intro v hv
      exact countsOf_ge_one posts (fun p => p.subreddit_id) v hv
    have hap := avg_pos hvne h1
    have ham := avg_le_listMaxQ hvne
    have hcr : 1 ≤ listMaxQ (Quality.subredditValuesOf posts)
        / ((Quality.subredditValuesOf posts).sum
          / ((Quality.subredditValuesOf posts).length : ℚ)) :=
      (one_le_div hap).2 ham
    exact ⟨le_max_left _ _, max_le (by norm_num) (by linarith)⟩
  · norm_num

theorem replyNaturalness_bounds (posts : List CalendarPost) (replies : List CalendarReply) :
    0 ≤ Quality.replyNaturalnessOf posts replies ∧
    Quality.replyNaturalnessOf posts replies ≤ 10 := by
  rw [Quality.replyNaturalnessOf]
  exact ⟨le_max_left _ _, max_le (by norm_num) (min_le_left _ _)⟩

theorem realism_bounds (posts : List CalendarPost) (replies : List CalendarReply) :
    5 ≤ Quality.evaluateRealism posts replies ∧
    Quality.evaluateRealism posts replies ≤ 10 := by
  rw [Quality.evaluateRealism]
  have hratio : 0 ≤ ((replies.filter (fun r =>
      match r.planned_content with
      | some c => c.length > 20
      | none => false)).length : ℚ) / ((max 1 replies.length : ℕ) : ℚ) * 2 := by
    positivity
  constructor
  · apply le_min (by norm_num)
    apply le_trans _ (le_max_right 0 _)
    split <;> split <;> split <;> linarith
  · exact min_le_left _ _

theorem fitsOf_bounds (posts : List CalendarPost) (subreddits : List Subreddit) :
    ∀ f ∈ Quality.fitsOf posts subreddits, 5 ≤ f ∧ f ≤ 8 := by
  intro f hf
  rcases List.mem_filterMap.1 hf with ⟨post, _, hpost⟩
  rcases Option.map_eq_some'.1 hpost with ⟨sub, _, hval⟩
  rw [← hval]
  dsimp only
  split_ifs <;> norm_num

theorem evaluateSubredditFit_bounds (posts : List CalendarPost)
    (subreddits : List Subreddit) :
    0 ≤ Quality.evaluateSubredditFit posts subreddits ∧
    Quality.evaluateSubredditFit posts subreddits ≤ 10 := by
  rw [Quality.evaluateSubredditFit]
  split
  · norm_num
  · dsimp only
    split
    · rename_i hlen
      have hlenQ : (0 : ℚ) < ((Quality.fitsOf posts subreddits).length : ℚ) := by
        exact_mod_cast hlen
      constructor
      · apply div_nonneg _ (le_of_lt hlenQ)
        apply List.sum_nonneg
        intro x hx
        linarith [(fitsOf_bounds posts subreddits x hx).1]
      · rw [div_le_iff₀ hlenQ]
        have := List.sum_le_card_nsmul (Quality.fitsOf posts subreddits) 8
          (fun x hx => (fitsOf_bounds posts subreddits x hx).2)
        simp only [nsmul_eq_mul] at this
        linarith
    · norm_num

theorem subredditFitOf_bounds (posts : List CalendarPost) (subreddits : List Subreddit) :
    0 ≤ Quality.subredditFitOf posts subreddits ∧
    Quality.subredditFitOf posts subreddits ≤ 10 := by
  rw [Quality.subredditFitOf]
  split
  · exact evaluateSubredditFit_bounds posts subreddits
  · norm_num

theorem personaDistinctiveness_bounds (posts : List CalendarPost)
    (replies : List CalendarReply) (personas : List Persona) :
    0 ≤ Quality.personaDistinctivenessOf posts replies personas ∧
    Quality.personaDistinctivenessOf posts replies personas ≤ 10 := by
  rw [Quality.personaDistinctivenessOf]
  split
  · rw [Quality.evaluatePersonaDistinctiveness]
    split
    · norm_num
    · exact ⟨le_max_left _ _, max_le (by norm_num) (min_le_left _ _)⟩
  · norm_num

/-! ### The anti-spam risk score is non-negative -/

theorem overpostingCheck_risk_nonneg (posts : List CalendarPost)
    (subreddits : List Subreddit) (sid : String) :
    0 ≤ (AntiSpam.overpostingCheck posts subreddits sid).2 := by
  rw [AntiSpam.overpostingCheck]
  cases subreddits.find? (fun s => s.id = sid) with
  | none => norm_num
  | some sub =>
      dsimp only
      split
      · split <;> norm_num [show ¬ ("medium" : String) = "high" from by decide]
      · norm_num

theorem overpostingSection_risk_nonneg (posts : List CalendarPost)
    (subreddits : List Subreddit) :
    0 ≤ (AntiSpam.overpostingSection posts subreddits).2 := by
  apply List.sum_nonneg
  intro x hx
  rcases List.mem_map.1 hx with ⟨sid, _, hs⟩
  rw [← hs]
  exact overpostingCheck_risk_nonneg posts subreddits sid

theorem personaImbalanceSection_risk_nonneg (posts : List CalendarPost) :
    0 ≤ (AntiSpam.personaImbalanceSection posts).2 := by
  rw [AntiSpam.personaImbalanceSection]
  split
  · dsimp only
    split <;> norm_num
  · norm_num

theorem topicRepetitionCheck_risk_nonneg (posts : List CalendarPost) (t : String) :
    0 ≤ (AntiSpam.topicRepetitionCheck posts t).2 := by
  rw [AntiSpam.topicRepetitionCheck]
  split
  · split <;> norm_num
  · norm_num

theorem topicRepetitionSection_risk_nonneg (posts : List CalendarPost) :
    0 ≤ (AntiSpam.topicRepetitionSection posts).2 := by
  apply List.sum_nonneg
  intro x hx
  rcases List.mem_map.1 hx with ⟨t, _, ht⟩
  rw [← ht]
  exact topicRepetitionCheck_risk_nonneg posts t

theorem wordingPatternSection_risk_nonneg (posts : List CalendarPost) :
    0 ≤ (AntiSpam.wordingPatternSection posts).2 := by
  apply List.sum_nonneg
  intro x hx
  rcases List.mem_map.1 hx with ⟨e, _, he⟩
  rw [← he]
  split <;> norm_num

theorem previousWeeksSection_risk_nonneg (posts : List CalendarPost)
    (prev : Option (List CalendarPost)) :
    0 ≤ (AntiSpam.previousWeeksSection posts prev).2 := by
  cases prev with
  | none => norm_num [AntiSpam.previousWeeksSection]
  | some l =>
      rw [AntiSpam.previousWeeksSection]
      split
      · apply List.sum_nonneg
        intro x hx
        rcases List.mem_map.1 hx with ⟨p, _, hp⟩
        rw [← hp]
        split <;> norm_num
      · norm_num

theorem consecutiveCheck_risk_nonneg (subreddits : List Subreddit)
    (pr : CalendarPost × CalendarPost) :
    0 ≤ (AntiSpam.consecutiveCheck subreddits pr).2 := by
  rw [AntiSpam.consecutiveCheck]
  split
  · cases subreddits.find? (fun s => s.id = pr.2.subreddit_id) with
    | none => norm_num
    | some sub =>
        dsimp only
        split <;> norm_num
  · norm_num

theorem consecutiveSection_risk_nonneg (posts : List CalendarPost)
    (subreddits : List Subreddit) :
    0 ≤ (AntiSpam.consecutiveSection posts subreddits).2 := by
  apply List.sum_nonneg
  intro x hx
  rcases List.mem_map.1 hx with ⟨pr, _, hpr⟩
  rw [← hpr]
  exact consecutiveCheck_risk_nonneg subreddits pr

/-- The final risk score is within `[0, 10]`. -/
theorem riskScore_bounds (posts : List CalendarPost) (replies : List CalendarReply)
    (subreddits : List Subreddit) (personas : List Persona)
    (prev : Option (List CalendarPost)) :
    0 ≤ (AntiSpam.checkSpamAndSafety posts replies subreddits personas prev).riskScore ∧
    (AntiSpam.checkSpamAndSafety posts replies subreddits personas prev).riskScore ≤ 10 := by
  have h1 := overpostingSection_risk_nonneg posts subreddits
  have h2 := personaImbalanceSection_risk_nonneg posts
  have h3 := topicRepetitionSection_risk_nonneg posts
  have h4 := wordingPatternSection_risk_nonneg posts
  have h5 := previousWeeksSection_risk_nonneg posts prev
  have h6 := consecutiveSection_risk_nonneg posts subreddits
  constructor
  · apply le_min (by norm_num)
    linarith
  · exact min_le_left _ _

theorem spamRiskOf_bounds (posts : List CalendarPost) (replies : List CalendarReply)
    (subreddits : List Subreddit) (personas : List Persona)
    (previousWeeksPosts : List CalendarPost) :
    0 ≤ Quality.spamRiskOf posts replies subreddits personas previousWeeksPosts ∧
    Quality.spamRiskOf posts replies subreddits personas previousWeeksPosts ≤ 10 := by
  rw [Quality.spamRiskOf]
  split
  · have := riskScore_bounds posts replies subreddits personas (some previousWeeksPosts)
    exact ⟨le_max_left _ _, max_le (by norm_num) (by linarith [this.1])⟩
  · norm_num

/-- Rounding to one decimal stays within `[0, 10]`. -/
theorem jround1_bounds {q : ℚ} (h0 : 0 ≤ q) (h10 : q ≤ 10) :
    0 ≤ jround1 q ∧ jround1 q ≤ 10 := by
  rw [jround1, jround]
  have hlow : (0 : ℤ) ≤ ⌊q * 10 + 1/2⌋ := by
    apply Int.le_floor.2
    push_cast
    linarith
  have hhigh : ⌊q * 10 + 1/2⌋ < 101 := by
    apply Int.floor_lt.2
    push_cast
    linarith
  constructor
  · apply div_nonneg _ (by norm_num)
    exact_mod_cast hlow
  · rw [div_le_iff₀ (by norm_num : (0:ℚ) < 10)]
    have : (⌊q * 10 + 1/2⌋ : ℚ) ≤ 100 := by exact_mod_cast (by omega : ⌊q * 10 + 1/2⌋ ≤ 100)
    linarith

/-- The unrounded overall score is within `[0, 10]` for a non-empty
post list. -/
theorem overallOf_bounds (posts : List CalendarPost) (replies : List CalendarReply)
    (subreddits : List Subreddit) (personas : List Persona)
    (previousWeeksPosts : List CalendarPost) (hne : posts ≠ []) :
    0 ≤ Quality.overallOf posts replies subreddits personas previousWeeksPosts ∧
    Quality.overallOf posts replies subreddits personas previousWeeksPosts ≤ 10 := by
  have h1 := topicDiversity_bounds posts hne
  have h2 := personaRotation_bounds posts
  have h3 := subredditDistribution_bounds posts
  have h4 := replyNaturalness_bounds posts replies
  have h5 := realism_bounds posts replies
  have h6 := subredditFitOf_bounds posts subreddits
  have h7 := spamRiskOf_bounds posts replies subreddits personas previousWeeksPosts
  have h8 := personaDistinctiveness_bounds posts replies personas
  rw [Quality.overallOf]
  constructor <;> nlinarith [h1.1, h1.2, h2.1, h2.2, h3.1, h3.2, h4.1, h4.2,
    h5.1, h5.2, h6.1, h6.2, h7.1, h7.2, h8.1, h8.2]

/-- **C8.** For every finished plan with a non-empty post list,
`evaluateCalendarQuality` returns an overall score in `[0, 10]`, and it
is a deterministic (pure) function of its inputs: evaluating the same
plan twice yields identical output. -/
theorem claim_C8 (posts : List CalendarPost) (replies : List CalendarReply)
    (subreddits : List Subreddit) (personas : List Persona)
    (previousWeeksPosts : List CalendarPost) (hne : posts ≠ []) :
    (0 ≤ (Quality.evaluateCalendarQuality posts replies subreddits personas
        previousWeeksPosts).overall ∧
     (Quality.evaluateCalendarQuality posts replies subreddits personas
        previousWeeksPosts).overall ≤ 10) ∧
    Quality.evaluateCalendarQuality posts replies subreddits personas previousWeeksPosts
      = Quality.evaluateCalendarQuality posts replies subreddits personas
          previousWeeksPosts := by
  have hov := overallOf_bounds posts replies subreddits personas previousWeeksPosts hne
  have hj := jround1_bounds hov.1 hov.2
  exact ⟨hj, rfl⟩

/-- Witness for C8 at a concrete one-post plan. -/
theorem claim_C8_witness :
    (0 ≤ (Quality.evaluateCalendarQuality
        [⟨"p1", "alpha", "a", "s1", PostType.question, none, 0, none⟩] [] [] [] []).overall ∧
     (Quality.evaluateCalendarQuality
        [⟨"p1", "alpha", "a", "s1", PostType.question, none, 0, none⟩] [] [] [] []).overall
       ≤ 10) ∧
    Quality.evaluateCalendarQuality
        [⟨"p1", "alpha", "a", "s1", PostType.question, none, 0, none⟩] [] [] [] []
      = Quality.evaluateCalendarQuality
        [⟨"p1", "alpha", "a", "s1", PostType.question, none, 0, none⟩] [] [] [] [] :=
  claim_C8 [⟨"p1", "alpha", "a", "s1", PostType.question, none, 0, none⟩] [] [] [] []
    (by simp)
